import Mathlib

/-!
Verification development for the P2P wallet transfer service
(`transfer.service.ts`, `saga.service.ts`, `idempotency.service.ts`,
`cache.service.ts`, `wallet.service.ts`).

The TypeScript services are shallowly embedded as pure Lean functions over an
explicit `World` state (wallets, transaction rows, limit ledgers, the Redis
key/value caches and the distributed-lock key set).  Monetary amounts are
modelled as `Int` (the source uses decimal(15,2) numbers; only ordering and
additive structure matter for the verified properties).  Calendar instants are
modelled as natural day/month indices (`dayjs(a).isBefore(b)` becomes `a < b`).
Thrown exceptions become `Except` errors.  Two ghost fields instrument the
state without influencing control flow: `writeLog` records, for every wallet
balance write, which lock keys were held at that moment, and the saga runner
records a `trace` of step/compensation events.

Infrastructure faults (network errors, store timeouts) thrown inside saga
steps are modelled by two oracles threaded through the saga construction:
`inject name attempt` makes the given execution attempt of a forward step
throw, and `cinject name` makes a compensation handler throw.  The fault-free
run corresponds to both oracles being constantly `false`.
-/

deriving instance DecidableEq for Except

namespace P2P

/-- Transaction type enum from `transaction.entity.ts`. -/
inductive TransactionType
  | DEPOSIT
  | WITHDRAWAL
  | TRANSFER
  | REFUND
  | COMPENSATION
deriving DecidableEq, Repr

/-- Transaction status enum from `transaction.entity.ts`. -/
inductive TransactionStatus
  | PENDING
  | PROCESSING
  | COMPLETED
  | FAILED
  | CANCELLED
  | COMPENSATED
deriving DecidableEq, Repr

/-- Transfer sub-state enum from `transaction.entity.ts`. -/
inductive TransferState
  | INITIATED
  | FUNDS_RESERVED
  | VALIDATION_COMPLETE
  | DEBIT_COMPLETE
  | CREDIT_COMPLETE
  | COMPLETED
  | COMPENSATION_PENDING
  | COMPENSATED
  | FAILED
deriving DecidableEq, Repr

/-- Wallet row (`wallet.entity.ts`): id, balance, currency, active flag, owner. -/
structure Wallet where
  id : String
  balance : Int
  currency : String
  isActive : Bool
  userId : String
deriving DecidableEq, Repr

/-- Transaction row (`transaction.entity.ts`).  The JSON `sagaState` blob is
flattened into the `saga*` fields and `errorDetails` into
`errorMessage`/`errorStep`/`errorCode` (the code never writes `errorCode`;
`canRetryFailedTransaction` reads it).  Timestamp columns that no verified
property depends on are represented by `completedAt` only. -/
structure Txn where
  id : String
  amount : Int
  type : TransactionType
  status : TransactionStatus
  transferState : Option TransferState
  description : String
  sourceWalletId : Option String
  destinationWalletId : Option String
  idempotencyKey : Option String
  externalReferenceId : Option String
  retryCount : Nat
  errorMessage : Option String := none
  errorStep : Option Nat := none
  errorCode : Option String := none
  sagaCurrentStep : Nat := 0
  sagaCompletedSteps : List String := []
  sagaCompensatedSteps : List String := []
  reservedAmount : Option Int := none
  sourceBalanceBefore : Option Int := none
  sourceBalanceAfter : Option Int := none
  destinationBalanceBefore : Option Int := none
  destinationBalanceAfter : Option Int := none
  completedAt : Option Nat := none
deriving DecidableEq, Repr

/-- Transfer-limit ledger row (`transfer-limit.entity.ts`); reset dates are
day/month indices. -/
structure TransferLimit where
  userId : String
  dailyLimit : Int
  monthlyLimit : Int
  dailyUsed : Int
  monthlyUsed : Int
  lastDailyReset : Nat
  lastMonthlyReset : Nat
deriving DecidableEq, Repr

/-- Response body of a transfer (`transfer-response.dto.ts`).  The service
produces it through two code paths with different shapes:
`mapToTransferResponseDto` nests `transferState`/`idempotencyKey` inside
`metadata` (the `meta*` fields here), while the idempotency gate's
`reconstructResultFromTransaction` puts `transferState` and `completedAt` at
top level (the `*Top` fields here).  Both shapes are captured in one record
with `Option` fields so that responses can be compared field by field. -/
structure TransferResponse where
  id : String
  amount : Int
  sourceWalletId : Option String
  destinationWalletId : Option String
  description : String
  status : TransactionStatus
  transferStateTop : Option TransferState := none
  completedAtTop : Option Nat := none
  metaTransferState : Option TransferState := none
  metaIdempotencyKey : Option String := none
  metaExternalReferenceId : Option String := none
  metaCompletedAt : Option Nat := none
deriving DecidableEq, Repr

/-- Errors surfaced by the transfer core: HTTP 400, 404, 409 and rethrown saga
step errors. -/
inductive TransferErr
  | badRequest (msg : String)
  | notFound (msg : String)
  | conflict (msg : String)
  | stepFailed (msg : String)
deriving DecidableEq, Repr

/-- Entry of the `request_hash:` cache written by `validateRequestUniqueness`:
the idempotency key it was stored under and the storage minute. -/
structure ReqHashEntry where
  idempotencyKey : String
  createdAtMin : Nat
deriving DecidableEq, Repr

/-- Ghost record of one wallet-balance write: the wallet and the lock keys
held by the writer at the instant of the write. -/
structure BalWrite where
  walletId : String
  locksHeld : List String
deriving DecidableEq, Repr

/-- The full service state: database tables, Redis caches and lock keys.
`writeLog` is ghost instrumentation (see the file comment). -/
structure World where
  wallets : List Wallet
  txns : List Txn
  limits : List TransferLimit
  resultCache : List (String × TransferResponse) := []
  reqTrackCache : List (String × String) := []
  errorCache : List (String × String) := []
  reqHashCache : List (String × ReqHashEntry) := []
  balCache : List (String × (Int × Nat)) := []
  limitUsageCache : List (String × Int) := []
  locks : List String := []
  writeLog : List BalWrite := []
deriving DecidableEq, Repr

/-- Redis GET over an association-list cache. -/
def kvGet {α : Type} (m : List (String × α)) (k : String) : Option α :=
  (m.find? (fun p => p.1 == k)).map (fun p => p.2)

/-- Redis SET over an association-list cache (overwrites the key). -/
def kvSet {α : Type} (m : List (String × α)) (k : String) (v : α) :
    List (String × α) :=
  (k, v) :: m.filter (fun p => p.1 != k)

/-- Redis DEL over an association-list cache. -/
def kvDel {α : Type} (m : List (String × α)) (k : String) : List (String × α) :=
  m.filter (fun p => p.1 != k)

/-- `walletRepository.findOne({where: {id}})`. -/
def findWallet (w : World) (wid : String) : Option Wallet :=
  w.wallets.find? (fun x => x.id == wid)

/-- `walletRepository.findOne({where: {id, isActive: true}})`. -/
def findActiveWallet (w : World) (wid : String) : Option Wallet :=
  w.wallets.find? (fun x => x.id == wid && x.isActive)

/-- `walletRepository.findOne({where: {id, userId, isActive: true}})`. -/
def findWalletOwned (w : World) (wid uid : String) : Option Wallet :=
  w.wallets.find? (fun x => x.id == wid && x.userId == uid && x.isActive)

/-- Expression-based balance update
`walletRepository.update({id}, {balance: () => balance + delta})`, plus the
ghost write-log entry recording the locks held at the write. -/
def updateWalletBalance (w : World) (wid : String) (delta : Int) : World :=
  { w with
    wallets := w.wallets.map
      (fun x => if x.id == wid then { x with balance := x.balance + delta } else x),
    writeLog := w.writeLog ++ [{ walletId := wid, locksHeld := w.locks }] }

/-- `transactionRepository.findOne({where: {id}})`. -/
def findTxn (w : World) (tid : String) : Option Txn :=
  w.txns.find? (fun t => t.id == tid)

/-- `transactionRepository.findOne({where: {idempotencyKey}})` (the key column
is unique, so the most-recent ordering of the source is immaterial). -/
def findTxnByKey (w : World) (k : String) : Option Txn :=
  w.txns.find? (fun t => t.idempotencyKey == some k)

/-- `transactionRepository.save` of a field update of the row `tid`. -/
def updateTxn (w : World) (tid : String) (f : Txn → Txn) : World :=
  { w with txns := w.txns.map (fun t => if t.id == tid then f t else t) }

/-- Insert of a freshly created transaction row. -/
def insertTxn (w : World) (t : Txn) : World :=
  { w with txns := w.txns ++ [t] }

/-- `cacheService.getWalletBalanceWithVersion`. -/
def getWalletBalanceWithVersion (w : World) (wid : String) : Option (Int × Nat) :=
  kvGet w.balCache ("wallet_balance_v2:" ++ wid)

/-- `cacheService.setWalletBalanceWithVersion`. -/
def setWalletBalanceWithVersion (w : World) (wid : String) (bal : Int) (ver : Nat) :
    World :=
  { w with balCache := kvSet w.balCache ("wallet_balance_v2:" ++ wid) (bal, ver) }

/-- The lock key for a wallet (`wallet_lock:` prefix, `cache.service.ts`). -/
def walletLockKey (wid : String) : String :=
  "wallet_lock:" ++ wid

/-- `cacheService.acquireWalletLock`: SET NX of the lock key; `none` when the
lock is already held. -/
def acquireWalletLock (w : World) (wid : String) : Option World :=
  if w.locks.contains (walletLockKey wid) then none
  else some { w with locks := walletLockKey wid :: w.locks }

/-- `cacheService.releaseWalletLock`: guarded DEL of the lock key. -/
def releaseWalletLock (w : World) (wid : String) : World :=
  { w with locks := w.locks.filter (fun k => k != walletLockKey wid) }

/-- The spec's locking contract (§4.B, the basis of claim C3): every recorded
balance write must have happened while the writer held that wallet's lease. -/
def lockContractHolds (log : List BalWrite) : Bool :=
  log.all (fun bw => bw.locksHeld.contains (walletLockKey bw.walletId))

/-- Saga context (`SagaContext` of `saga.service.ts`); the mutable
`metadata.sourceBalanceBefore` / `metadata.destinationBalanceBefore` slots
live in `SagaRun` below because the step closures mutate them. -/
structure SagaContext where
  transactionId : String
  sourceWalletId : String
  destinationWalletId : String
  amount : Int
  userId : String
  idempotencyKey : String
deriving DecidableEq, Repr

/-- Ghost trace events recorded by the saga runner (not present in the
source; they let theorems speak about intermediate instants of a run). -/
inductive Ev
  | stepDone (i : Nat) (name : String) (stateSet : TransferState)
  | attemptFail (i : Nat) (name : String)
  | retry (i : Nat) (rc : Nat)
  | compTry (name : String)
  | compOk (name : String)
  | compFail (name : String)
deriving DecidableEq, Repr

/-- In-flight saga execution state: the world, the in-memory `SagaState`
(`currentStep`, `completedSteps`, `compensatedSteps`, `retryCount`,
`lastError`), the context's mutable metadata slots, and the ghost trace. -/
structure SagaRun where
  w : World
  currentStep : Nat := 0
  completedSteps : List String := []
  compensatedSteps : List String := []
  retryCount : Nat := 0
  lastError : Option String := none
  ctxSourceBalanceBefore : Option Int := none
  ctxDestinationBalanceBefore : Option Int := none
  trace : List Ev := []
deriving DecidableEq, Repr

/-- A saga step (`SagaStep` of `saga.service.ts`).  `execute` additionally
receives the attempt index for this step (0 for the first try), which is how
the fault oracles address individual attempts. -/
structure SagaStep where
  name : String
  execute : Nat → SagaRun → Except String SagaRun
  compensate : SagaRun → Except String SagaRun
  retryable : Bool
  maxRetries : Nat

/-- `updateSagaState`: persists the in-memory saga state onto the transaction
row (`sagaState` blob, `retryCount`, and `errorDetails` when a last error is
present). -/
def updateSagaState (ctx : SagaContext) (s : SagaRun) : SagaRun :=
  { s with w := updateTxn s.w ctx.transactionId (fun t =>
      { t with
        sagaCurrentStep := s.currentStep,
        sagaCompletedSteps := s.completedSteps,
        sagaCompensatedSteps := s.compensatedSteps,
        retryCount := s.retryCount,
        errorMessage := match s.lastError with
          | some m => some m
          | none => t.errorMessage,
        errorStep := match s.lastError with
          | some _ => some s.currentStep
          | none => t.errorStep }) }

/-- `updateTransactionStatus`: sets the status on the transaction row. -/
def updateTransactionStatus (ctx : SagaContext) (st : TransactionStatus)
    (s : SagaRun) : SagaRun :=
  { s with w := updateTxn s.w ctx.transactionId (fun t => { t with status := st }) }

/-- `updateTransferState`: sets the transfer sub-state on the transaction row. -/
def updateTransferState (ctx : SagaContext) (ts : TransferState)
    (s : SagaRun) : SagaRun :=
  { s with w :=
      updateTxn s.w ctx.transactionId (fun t => { t with transferState := some ts }) }

/-- `getTransferStateForStep`: the source's `stateMap[stepIndex] || INITIATED`
lookup used right after step `stepIndex` completes. -/
def getTransferStateForStep (stepIndex : Nat) : TransferState :=
  match stepIndex with
  | 0 => TransferState.INITIATED
  | 1 => TransferState.VALIDATION_COMPLETE
  | 2 => TransferState.FUNDS_RESERVED
  | 3 => TransferState.DEBIT_COMPLETE
  | 4 => TransferState.CREDIT_COMPLETE
  | _ => TransferState.INITIATED

/-- Saga step body `validateTransfer`: both wallets must exist, be active and
share a currency. -/
def validateTransfer (ctx : SagaContext) (s : SagaRun) : Except String SagaRun :=
  match findActiveWallet s.w ctx.sourceWalletId with
  | none => .error "Source wallet not found or inactive"
  | some sw =>
    match findActiveWallet s.w ctx.destinationWalletId with
    | none => .error "Destination wallet not found or inactive"
    | some dw =>
      if sw.currency ≠ dw.currency then .error "Currency mismatch between wallets"
      else .ok s

/-- Saga step body `reserveFunds`: stores the reservation on the transaction
row (the 30-minute expiry timestamp is a server-clock field outside the
verified properties). -/
def reserveFunds (ctx : SagaContext) (s : SagaRun) : Except String SagaRun :=
  match findTxn s.w ctx.transactionId with
  | none => .error "Transaction not found"
  | some _ => .ok { s with
      w := updateTxn s.w ctx.transactionId
        (fun t => { t with reservedAmount := some ctx.amount }) }

/-- JavaScript truthiness of the `reservedAmount` column (`0` is falsy). -/
def reservedTruthy : Option Int → Bool
  | none => false
  | some v => v != 0

/-- Compensation body `releaseReservedFunds`: clears the reservation when one
is present. -/
def releaseReservedFunds (ctx : SagaContext) (s : SagaRun) : Except String SagaRun :=
  match findTxn s.w ctx.transactionId with
  | none => .ok s
  | some t =>
    if reservedTruthy t.reservedAmount then
      .ok { s with
        w := updateTxn s.w ctx.transactionId
          (fun u => { u with reservedAmount := none }) }
    else .ok s

/-- Saga step body `debitSourceWallet`: balance guard, snapshot of the prior
balance into the context metadata, expression-based debit, and versioned
cache write. -/
def debitSourceWallet (ctx : SagaContext) (s : SagaRun) : Except String SagaRun :=
  match findWallet s.w ctx.sourceWalletId with
  | none => .error "Source wallet not found"
  | some sw =>
    if sw.balance < ctx.amount then .error "Insufficient balance"
    else
      let s1 := { s with ctxSourceBalanceBefore := some sw.balance }
      let w1 := updateWalletBalance s1.w ctx.sourceWalletId (-ctx.amount)
      let newBalance := sw.balance - ctx.amount
      let newVersion := match getWalletBalanceWithVersion w1 ctx.sourceWalletId with
        | some (_, v) => v + 1
        | none => 1
      .ok { s1 with
        w := setWalletBalanceWithVersion w1 ctx.sourceWalletId newBalance newVersion }

/-- Compensation body `creditSourceWallet`: unconditional credit of the
transfer amount back to the source wallet, then cache refresh from the row. -/
def creditSourceWallet (ctx : SagaContext) (s : SagaRun) : Except String SagaRun :=
  let w1 := updateWalletBalance s.w ctx.sourceWalletId ctx.amount
  match findWallet w1 ctx.sourceWalletId with
  | none => .ok { s with w := w1 }
  | some sw =>
    let newVersion := match getWalletBalanceWithVersion w1 ctx.sourceWalletId with
      | some (_, v) => v + 1
      | none => 1
    .ok { s with
      w := setWalletBalanceWithVersion w1 ctx.sourceWalletId sw.balance newVersion }

/-- Saga step body `creditDestinationWallet`: snapshot of the prior balance
into the context metadata, expression-based credit, versioned cache write. -/
def creditDestinationWallet (ctx : SagaContext) (s : SagaRun) :
    Except String SagaRun :=
  match findWallet s.w ctx.destinationWalletId with
  | none => .error "Destination wallet not found"
  | some dw =>
    let s1 := { s with ctxDestinationBalanceBefore := some dw.balance }
    let w1 := updateWalletBalance s1.w ctx.destinationWalletId ctx.amount
    let newBalance := dw.balance + ctx.amount
    let newVersion := match getWalletBalanceWithVersion w1 ctx.destinationWalletId with
      | some (_, v) => v + 1
      | none => 1
    .ok { s1 with
      w := setWalletBalanceWithVersion w1 ctx.destinationWalletId newBalance newVersion }

/-- Compensation body `debitDestinationWallet`: unconditional debit of the
transfer amount from the destination wallet, then cache refresh from the row. -/
def debitDestinationWallet (ctx : SagaContext) (s : SagaRun) :
    Except String SagaRun :=
  let w1 := updateWalletBalance s.w ctx.destinationWalletId (-ctx.amount)
  match findWallet w1 ctx.destinationWalletId with
  | none => .ok { s with w := w1 }
  | some dw =>
    let newVersion := match getWalletBalanceWithVersion w1 ctx.destinationWalletId with
      | some (_, v) => v + 1
      | none => 1
    .ok { s with
      w := setWalletBalanceWithVersion w1 ctx.destinationWalletId dw.balance newVersion }

/-- Saga step body `finalizeTransfer`: writes the four balance snapshots onto
the transaction row when both wallets and the row are found. -/
def finalizeTransfer (ctx : SagaContext) (s : SagaRun) : Except String SagaRun :=
  match findWallet s.w ctx.sourceWalletId with
  | none => .ok s
  | some sw =>
    match findWallet s.w ctx.destinationWalletId with
    | none => .ok s
    | some dw =>
      match findTxn s.w ctx.transactionId with
      | none => .ok s
      | some _ => .ok { s with
          w := updateTxn s.w ctx.transactionId (fun t =>
            { t with
              sourceBalanceAfter := some sw.balance,
              destinationBalanceAfter := some dw.balance,
              sourceBalanceBefore := s.ctxSourceBalanceBefore,
              destinationBalanceBefore := s.ctxDestinationBalanceBefore }) }

/-- Wraps a forward step body with the infrastructure-fault oracle: attempt
`a` of step `name` throws whenever `inject name a` fires. -/
def injectWrap (inject : String → Nat → Bool) (name : String)
    (body : SagaRun → Except String SagaRun) : Nat → SagaRun → Except String SagaRun :=
  fun a s => if inject name a then .error "injected failure" else body s

/-- Wraps a compensation body with the compensation-fault oracle. -/
def cinjectWrap (cinject : String → Bool) (name : String)
    (body : SagaRun → Except String SagaRun) : SagaRun → Except String SagaRun :=
  fun s => if cinject name then .error "injected compensation failure" else body s

/-- `createTransferSagaSteps`: the five transfer steps with their retry
policies and compensations, wrapped with the fault oracles. -/
def createTransferSagaSteps (ctx : SagaContext) (inject : String → Nat → Bool)
    (cinject : String → Bool) : List SagaStep :=
  [ { name := "validate_transfer", retryable := true, maxRetries := 3,
      execute := injectWrap inject "validate_transfer" (validateTransfer ctx),
      compensate := cinjectWrap cinject "validate_transfer" (fun s => .ok s) },
    { name := "reserve_funds", retryable := true, maxRetries := 2,
      execute := injectWrap inject "reserve_funds" (reserveFunds ctx),
      compensate := cinjectWrap cinject "reserve_funds" (releaseReservedFunds ctx) },
    { name := "debit_source_wallet", retryable := true, maxRetries := 2,
      execute := injectWrap inject "debit_source_wallet" (debitSourceWallet ctx),
      compensate := cinjectWrap cinject "debit_source_wallet" (creditSourceWallet ctx) },
    { name := "credit_destination_wallet", retryable := true, maxRetries := 2,
      execute := injectWrap inject "credit_destination_wallet" (creditDestinationWallet ctx),
      compensate := cinjectWrap cinject "credit_destination_wallet" (debitDestinationWallet ctx) },
    { name := "finalize_transfer", retryable := false, maxRetries := 0,
      execute := injectWrap inject "finalize_transfer" (finalizeTransfer ctx),
      compensate := cinjectWrap cinject "finalize_transfer" (fun s => .ok s) } ]

/-- Run state after a successful attempt of forward step `i`: push the step
name, persist the saga state, set the mapped sub-state (with the ghost
`stepDone` event). -/
def execStepSuccess (ctx : SagaContext) (step : SagaStep) (i : Nat)
    (s1 : SagaRun) : Except SagaRun SagaRun :=
  let s2 := { s1 with
    completedSteps := s1.completedSteps ++ [step.name],
    trace := s1.trace ++ [Ev.stepDone i step.name (getTransferStateForStep i)] }
  let s3 := updateSagaState ctx s2
  .ok (updateTransferState ctx (getTransferStateForStep i) s3)

/-- Run state after a failed attempt of forward step `i`: the in-memory
`lastError` is set (with the ghost `attemptFail` event). -/
def execStepFailState (step : SagaStep) (i : Nat) (s : SagaRun) (msg : String) :
    SagaRun :=
  { s with
    lastError := some msg,
    trace := s.trace ++ [Ev.attemptFail i step.name] }

/-- One forward step with the source's retry loop.  The source retries while
`step.retryable && sagaState.retryCount < step.maxRetries`; `budget` is the
remaining allowance `step.maxRetries - retryCount`, so `budget > 0` is exactly
that comparison (at budget 0 the retryable and non-retryable branches agree on
terminal failure).  `.error` carries the run state at terminal failure (the
source then throws into compensation).  The recursion on `budget` is spelled
with `Nat.rec` so that concrete runs reduce linearly. -/
def execStepAttempts (ctx : SagaContext) (step : SagaStep) (i : Nat)
    (attempt budget : Nat) (s : SagaRun) : Except SagaRun SagaRun :=
  Nat.rec (motive := fun _ => Nat → SagaRun → Except SagaRun SagaRun)
    (fun attempt s =>
      match step.execute attempt s with
      | .ok s1 => execStepSuccess ctx step i s1
      | .error msg => .error (execStepFailState step i s msg))
    (fun _ ih attempt s =>
      match step.execute attempt s with
      | .ok s1 => execStepSuccess ctx step i s1
      | .error msg =>
        let sf := execStepFailState step i s msg
        if step.retryable then
          ih (attempt + 1)
            (updateSagaState ctx
              { sf with
                retryCount := sf.retryCount + 1,
                trace := sf.trace ++ [Ev.retry i (sf.retryCount + 1)] })
        else .error sf)
    budget attempt s

/-- The forward phase of `executeSaga`: run the steps in order, threading the
index for the sub-state map. -/
def execForward (ctx : SagaContext) (steps : List SagaStep) (i : Nat)
    (s : SagaRun) : Except SagaRun SagaRun :=
  match steps with
  | [] => .ok s
  | step :: rest =>
    let s0 := { s with currentStep := i }
    match execStepAttempts ctx step i 0 (step.maxRetries - s0.retryCount) s0 with
    | .ok s1 => execForward ctx rest (i + 1) s1
    | .error sf => .error sf

/-- The compensation loop of `compensateSaga`: for each completed step name in
the (already reversed) list, look the step up, attempt its compensation, and
continue past individual compensation failures. -/
def compLoop (steps : List SagaStep) (names : List String) (s : SagaRun) : SagaRun :=
  match names with
  | [] => s
  | n :: rest =>
    match steps.find? (fun st => st.name == n) with
    | none => compLoop steps rest s
    | some st =>
      let s1 := { s with trace := s.trace ++ [Ev.compTry n] }
      match st.compensate s1 with
      | .ok s2 => compLoop steps rest
          { s2 with
            compensatedSteps := s2.compensatedSteps ++ [n],
            trace := s2.trace ++ [Ev.compOk n] }
      | .error _ => compLoop steps rest
          { s1 with trace := s1.trace ++ [Ev.compFail n] }

/-- `compensateSaga`: mark the transaction FAILED and COMPENSATION_PENDING,
compensate completed steps in reverse order (the source's in-place
`Array.reverse` also leaves `completedSteps` reversed), then set the final
sub-state COMPENSATED and persist the saga state. -/
def compensateSaga (ctx : SagaContext) (steps : List SagaStep) (s : SagaRun) :
    SagaRun :=
  let s1 := updateTransactionStatus ctx TransactionStatus.FAILED s
  let s2 := updateTransferState ctx TransferState.COMPENSATION_PENDING s1
  let rev := s2.completedSteps.reverse
  let s3 := { s2 with completedSteps := rev }
  let s4 := compLoop steps rev s3
  let s5 := updateTransferState ctx TransferState.COMPENSATED s4
  updateSagaState ctx s5

/-- `completeSaga`: status COMPLETED, sub-state COMPLETED, completion stamp
(the wall-clock value is immaterial and modelled as 0). -/
def completeSaga (ctx : SagaContext) (s : SagaRun) : SagaRun :=
  let s1 := updateTransactionStatus ctx TransactionStatus.COMPLETED s
  let s2 := updateTransferState ctx TransferState.COMPLETED s1
  { s2 with w :=
      updateTxn s2.w ctx.transactionId (fun t => { t with completedAt := some 0 }) }

/-- `executeSaga`: initialize the saga state on the row, run the forward
phase, and on any failure compensate; the Bool is `true` exactly when every
step completed and the saga closed successfully. -/
def executeSaga (ctx : SagaContext) (steps : List SagaStep) (s : SagaRun) :
    Bool × SagaRun :=
  let sInit := updateSagaState ctx s
  match execForward ctx steps 0 sInit with
  | .ok sDone => (true, completeSaga ctx sDone)
  | .error sf => (false, compensateSaga ctx steps sf)

/-- Transfer request payload (`transfer.dto.ts`). -/
structure TransferDto where
  destinationWalletId : String
  amount : Int
  description : Option String := none
  idempotencyKey : Option String := none
  externalReferenceId : Option String := none
deriving DecidableEq, Repr

/-- Environment parameters of a request: the hash digest function (the source
applies MD5 to the serialized request data; any function of the serialization
is admissible here), the auto-generated idempotency key used when the caller
supplies none, the fresh transaction row id, the current minute for the
request-hash window, the current day and month indices for limit resets, and
the two fault oracles for the saga. -/
structure Env where
  digest : String → String
  genKey : String
  newTxId : String
  nowMin : Nat
  today : Nat
  month : Nat
  inject : String → Nat → Bool
  cinject : String → Bool

/-- JSON string literal (escaping of special characters is omitted; no
verified property depends on it). -/
def jsonStr (s : String) : String :=
  "\"" ++ s ++ "\""

/-- `JSON.stringify` of the `corePayload` object built by `createRequestHash`:
only `destinationWalletId`, `amount` and `description` enter, in insertion
order, and an absent (`undefined`) description is omitted exactly as
`JSON.stringify` omits undefined properties. -/
def corePayloadJson (p : TransferDto) : String :=
  "\x7b" ++ jsonStr "destinationWalletId" ++ ":" ++ jsonStr p.destinationWalletId ++
    "," ++ jsonStr "amount" ++ ":" ++ toString p.amount ++
    (match p.description with
      | some d => "," ++ jsonStr "description" ++ ":" ++ jsonStr d
      | none => "") ++ "\x7d"

/-- `JSON.stringify` of the `requestData` object of `createRequestHash`:
method, endpoint, core payload, userId, in insertion order. -/
def requestDataJson (method endpoint : String) (p : TransferDto) (userId : String) :
    String :=
  "\x7b" ++ jsonStr "method" ++ ":" ++ jsonStr method ++
    "," ++ jsonStr "endpoint" ++ ":" ++ jsonStr endpoint ++
    "," ++ jsonStr "payload" ++ ":" ++ corePayloadJson p ++
    "," ++ jsonStr "userId" ++ ":" ++ jsonStr userId ++ "\x7d"

/-- `createRequestHash` of `idempotency.service.ts`: digest of the serialized
request data; the idempotency key and external reference are excluded by
construction of `corePayloadJson`. -/
def createRequestHash (digest : String → String) (method endpoint : String)
    (p : TransferDto) (userId : String) : String :=
  digest (requestDataJson method endpoint p userId)

/-- `mapToTransferResponseDto` of `transfer.service.ts`: the success-path
response shape, with `transferState`, `idempotencyKey`, `externalReferenceId`
and `completedAt` nested inside `metadata`. -/
def mapToTransferResponseDto (t : Txn) : TransferResponse :=
  { id := t.id,
    amount := t.amount,
    sourceWalletId := t.sourceWalletId,
    destinationWalletId := t.destinationWalletId,
    description := t.description,
    status := t.status,
    metaTransferState := t.transferState,
    metaIdempotencyKey := t.idempotencyKey,
    metaExternalReferenceId := t.externalReferenceId,
    metaCompletedAt := t.completedAt }

/-- `reconstructResultFromTransaction` of `idempotency.service.ts`: rebuilds a
response from a COMPLETED row, with `transferState` and `completedAt` at top
level; `null` for any other status. -/
def reconstructResultFromTransaction (t : Txn) : Option TransferResponse :=
  if t.status = TransactionStatus.COMPLETED then
    some { id := t.id,
           amount := t.amount,
           sourceWalletId := t.sourceWalletId,
           destinationWalletId := t.destinationWalletId,
           description := t.description,
           status := t.status,
           transferStateTop := t.transferState,
           completedAtTop := t.completedAt }
  else none

/-- `storeResult`: caches the serialized response under `idempotency:` (1 h
TTL) and a completion marker under `idempotency_request:` (30 min TTL); the
JSON round-trip is the identity at this level of modelling. -/
def storeResult (w : World) (key : String) (r : TransferResponse) : World :=
  { w with
    resultCache := kvSet w.resultCache ("idempotency:" ++ key) r,
    reqTrackCache := kvSet w.reqTrackCache ("idempotency_request:" ++ key) "completed" }

/-- Message text of an error, as `error.message` would surface it. -/
def errMessage : TransferErr → String
  | .badRequest m => m
  | .notFound m => m
  | .conflict m => m
  | .stepFailed m => m

/-- `storeFailure`: records the failure under `idempotency_error:` (5 min
TTL). -/
def storeFailure (w : World) (key : String) (e : TransferErr) : World :=
  { w with errorCache := kvSet w.errorCache ("idempotency_error:" ++ key) (errMessage e) }

/-- The non-retryable business error codes of `canRetryFailedTransaction`. -/
def nonRetryableErrors : List String :=
  ["insufficient_balance", "invalid_wallet", "limit_exceeded", "currency_mismatch"]

/-- `canRetryFailedTransaction`: a failed row is retryable when fewer than 3
retries were consumed and its error code is not a terminal business code. -/
def canRetryFailedTransaction (t : Txn) : Bool :=
  if 3 ≤ t.retryCount then false
  else
    match t.errorCode with
    | some c => !(nonRetryableErrors.contains c)
    | none => true

/-- `isTransactionInProgress` of `idempotency.service.ts`. -/
def isTransactionInProgress (t : Txn) : Bool :=
  t.status == TransactionStatus.PENDING || t.status == TransactionStatus.PROCESSING

/-- Outcome of `checkIdempotency` (`IdempotencyResult`): a cached or
reconstructed response (`isNew=false, existingResult`), an existing
transaction handed to the caller (`isNew=false, transaction`), or a fresh
request (`isNew=true`). -/
inductive IdemOutcome
  | hit (r : TransferResponse)
  | existingTx (t : Txn)
  | fresh
deriving DecidableEq, Repr

/-- `handleExistingTransaction` of `idempotency.service.ts`: branch on the
status of the row found under the idempotency key. -/
def handleExistingTransaction (w : World) (t : Txn) (cacheKey : String) :
    IdemOutcome × World :=
  match t.status with
  | .COMPLETED =>
    match kvGet w.resultCache cacheKey with
    | some r => (.hit r, w)
    | none =>
      match reconstructResultFromTransaction t with
      | some r => (.hit r, storeResult w (t.idempotencyKey.getD "") r)
      | none => (.fresh, w)
  | .PROCESSING => (.existingTx t, w)
  | .PENDING => (.existingTx t, w)
  | .FAILED =>
    if canRetryFailedTransaction t then (.fresh, w) else (.existingTx t, w)
  | .CANCELLED =>
    if canRetryFailedTransaction t then (.fresh, w) else (.existingTx t, w)
  | .COMPENSATED => (.existingTx t, w)

/-- `validateRequestUniqueness`: for explicitly supplied keys, a recent
request-hash entry under a different key whose original transaction is still
in flight yields Conflict; otherwise the hash→key mapping is stored. -/
def validateRequestUniqueness (env : Env) (w : World) (reqHash key : String) :
    Except TransferErr World :=
  let rk := "request_hash:" ++ reqHash
  let stored : World :=
    { w with reqHashCache :=
        kvSet w.reqHashCache rk { idempotencyKey := key, createdAtMin := env.nowMin } }
  match kvGet w.reqHashCache rk with
  | some e =>
    if e.idempotencyKey ≠ key ∧ env.nowMin - e.createdAtMin < 5 then
      match w.txns.find? (fun t => t.idempotencyKey == some e.idempotencyKey) with
      | some ot =>
        if isTransactionInProgress ot then
          .error (.conflict "A similar transfer is already in progress")
        else .ok stored
      | none => .ok stored
    else .ok stored
  | none => .ok stored

/-- `checkIdempotency`: result cache, then durable row, then (for explicit
keys only) request-hash uniqueness. -/
def checkIdempotency (env : Env) (w : World) (key reqHash : String) :
    Except TransferErr (IdemOutcome × World) :=
  match kvGet w.resultCache ("idempotency:" ++ key) with
  | some r => .ok (.hit r, w)
  | none =>
    match findTxnByKey w key with
    | some t => .ok (handleExistingTransaction w t ("idempotency:" ++ key))
    | none =>
      if !(key.startsWith "auto_") then
        match validateRequestUniqueness env w reqHash key with
        | .error e => .error e
        | .ok w1 => .ok (.fresh, w1)
      else .ok (.fresh, w)

/-- `handleExistingTransaction` of `transfer.service.ts`: map an existing
transaction's status onto a response or an error. -/
def handleExistingTransactionSvc (t : Txn) : Except TransferErr TransferResponse :=
  match t.status with
  | .COMPLETED => .ok (mapToTransferResponseDto t)
  | .PROCESSING => .error (.conflict "Transfer is already in progress")
  | .PENDING => .error (.conflict "Transfer is already in progress")
  | .FAILED => .error (.badRequest "Transfer has failed")
  | .CANCELLED => .error (.badRequest "Transfer has failed")
  | .COMPENSATED => .error (.badRequest "Transfer has unknown status")

/-- `validateTransferLimits` of `transfer.service.ts`: load the ledger, apply
in-memory daily/monthly resets, check both limits (throwing LimitExceeded as
a 400 before any save), and only then persist the updated ledger.  The pair
always carries the ledger store so that the store after a thrown check is
observable: it is unchanged. -/
def validateTransferLimits (limits : List TransferLimit) (userId : String)
    (amount : Int) (today month : Nat) :
    Except TransferErr Unit × List TransferLimit :=
  match limits.find? (fun l => l.userId == userId) with
  | none => (.error (.notFound "Transfer limits not found"), limits)
  | some tl =>
    let tl1 := if tl.lastDailyReset < today then
        { tl with dailyUsed := 0, lastDailyReset := today } else tl
    let tl2 := if tl1.lastMonthlyReset < month then
        { tl1 with monthlyUsed := 0, lastMonthlyReset := month } else tl1
    if tl2.dailyLimit < tl2.dailyUsed + amount then
      (.error (.badRequest ("Daily transfer limit exceeded. Used: " ++
        toString tl2.dailyUsed ++ ", Limit: " ++ toString tl2.dailyLimit)), limits)
    else if tl2.monthlyLimit < tl2.monthlyUsed + amount then
      (.error (.badRequest ("Monthly transfer limit exceeded. Used: " ++
        toString tl2.monthlyUsed ++ ", Limit: " ++ toString tl2.monthlyLimit)), limits)
    else
      (.ok (), limits.map (fun l => if l.userId == userId then tl2 else l))

/-- `validateTransferRequest` of `transfer.service.ts`: positivity, distinct
wallets, ownership and activity lookups, currency, balance, then limits.  On any
thrown error the ledger store is unchanged. -/
def validateTransferRequest (w : World) (sourceWalletId destinationWalletId : String)
    (amount : Int) (userId : String) (today month : Nat) :
    Except TransferErr Unit × List TransferLimit :=
  if amount ≤ 0 then
    (.error (.badRequest "Transfer amount must be positive"), w.limits)
  else if sourceWalletId == destinationWalletId then
    (.error (.badRequest "Cannot transfer to the same wallet"), w.limits)
  else
    match findWalletOwned w sourceWalletId userId with
    | none => (.error (.notFound "Source wallet not found or not accessible"), w.limits)
    | some sw =>
      match findActiveWallet w destinationWalletId with
      | none => (.error (.notFound "Destination wallet not found or inactive"), w.limits)
      | some dw =>
        if sw.currency ≠ dw.currency then
          (.error (.badRequest "Currency mismatch between wallets"), w.limits)
        else if sw.balance < amount then
          (.error (.badRequest "Insufficient balance"), w.limits)
        else
          validateTransferLimits w.limits userId amount today month

/-- `createTransactionRecord`: the initial PENDING / INITIATED row. -/
def createTransactionRecord (env : Env) (w : World)
    (sourceWalletId destinationWalletId : String) (amount : Int)
    (description : Option String) (key : String)
    (externalReferenceId : Option String) : Txn × World :=
  let t : Txn :=
    { id := env.newTxId,
      amount := amount,
      type := TransactionType.TRANSFER,
      status := TransactionStatus.PENDING,
      transferState := some TransferState.INITIATED,
      description := description.getD "P2P Transfer",
      sourceWalletId := some sourceWalletId,
      destinationWalletId := some destinationWalletId,
      idempotencyKey := some key,
      externalReferenceId := externalReferenceId,
      retryCount := 0 }
  (t, insertTxn w t)

/-- `updateTransferLimitsUsage`: after saga success, add the amount to both
used counters and invalidate the cached counters; a missing ledger row only
logs a warning. -/
def updateTransferLimitsUsage (w : World) (userId : String) (amount : Int) : World :=
  match w.limits.find? (fun l => l.userId == userId) with
  | none => w
  | some tl =>
    let tl1 := { tl with dailyUsed := tl.dailyUsed + amount,
                         monthlyUsed := tl.monthlyUsed + amount }
    { w with
      limits := w.limits.map (fun l => if l.userId == userId then tl1 else l),
      limitUsageCache :=
        kvDel (kvDel w.limitUsageCache ("transfer_limit:" ++ userId ++ ":daily"))
          ("transfer_limit:" ++ userId ++ ":monthly") }

/-- `executeTransferSaga`: create the row, build the saga context and steps,
run the saga; on success commit the limit usage and map the completed row to
a response, on failure surface the step error (the world keeps all effects of
the saga including compensation). -/
def executeTransferSaga (env : Env) (w : World)
    (sourceWalletId destinationWalletId : String) (amount : Int)
    (description : Option String) (userId key : String)
    (externalReferenceId : Option String) :
    Except TransferErr TransferResponse × World :=
  let (t, w1) := createTransactionRecord env w sourceWalletId destinationWalletId
    amount description key externalReferenceId
  let ctx : SagaContext :=
    { transactionId := t.id,
      sourceWalletId := sourceWalletId,
      destinationWalletId := destinationWalletId,
      amount := amount,
      userId := userId,
      idempotencyKey := key }
  let steps := createTransferSagaSteps ctx env.inject env.cinject
  match executeSaga ctx steps { w := w1 } with
  | (true, s1) =>
    let w2 := updateTransferLimitsUsage s1.w userId amount
    match findTxn w2 t.id with
    | some ct => (.ok (mapToTransferResponseDto ct), w2)
    | none => (.ok (mapToTransferResponseDto t), w2)
  | (false, s1) =>
    (.error (.stepFailed (s1.lastError.getD "saga failed")), s1.w)

/-- `transferFunds` of `transfer.service.ts`: idempotency gate, request
validation, saga execution, idempotency result/failure recording. -/
def transferFunds (env : Env) (w : World) (sourceWalletId userId : String)
    (dto : TransferDto) : Except TransferErr TransferResponse × World :=
  let key := dto.idempotencyKey.getD env.genKey
  let endpoint := "/wallets/" ++ sourceWalletId ++ "/transfer"
  let reqHash := createRequestHash env.digest "POST" endpoint dto userId
  match checkIdempotency env w key reqHash with
  | .error e => (.error e, w)
  | .ok (.hit r, w1) => (.ok r, w1)
  | .ok (.existingTx t, w1) => (handleExistingTransactionSvc t, w1)
  | .ok (.fresh, w1) =>
    match validateTransferRequest w1 sourceWalletId dto.destinationWalletId
        dto.amount userId env.today env.month with
    | (.error e, _) => (.error e, w1)
    | (.ok _, limits1) =>
      let w2 := { w1 with limits := limits1 }
      match executeTransferSaga env w2 sourceWalletId dto.destinationWalletId
          dto.amount dto.description userId key dto.externalReferenceId with
      | (.ok r, w3) => (.ok r, storeResult w3 key r)
      | (.error e, w3) => (.error e, storeFailure w3 key e)

/-- View returned by `getTransferLimits` (`transfer-limits` endpoint). -/
structure LimitsView where
  dailyLimit : Int
  dailyUsed : Int
  dailyRemaining : Int
  monthlyLimit : Int
  monthlyUsed : Int
  monthlyRemaining : Int
  lastDailyReset : Nat
  lastMonthlyReset : Nat
deriving DecidableEq, Repr

/-- `getTransferLimits` of `transfer.service.ts`: loads the ledger row,
zeroes the used counters on the in-memory object when a reset window has
passed, and answers from that object; the function never saves, which the
returned ledger store (always the input, since no save statement exists in
the source) makes observable. -/
def getTransferLimits (limits : List TransferLimit) (userId : String)
    (today month : Nat) : Except TransferErr LimitsView × List TransferLimit :=
  match limits.find? (fun l => l.userId == userId) with
  | none => (.error (.notFound "Transfer limits not found"), limits)
  | some tl =>
    let d := if tl.lastDailyReset < today then 0 else tl.dailyUsed
    let m := if tl.lastMonthlyReset < month then 0 else tl.monthlyUsed
    (.ok { dailyLimit := tl.dailyLimit,
           dailyUsed := d,
           dailyRemaining := tl.dailyLimit - d,
           monthlyLimit := tl.monthlyLimit,
           monthlyUsed := m,
           monthlyRemaining := tl.monthlyLimit - m,
           lastDailyReset := tl.lastDailyReset,
           lastMonthlyReset := tl.lastMonthlyReset }, limits)

/-- `addFunds` of `wallet.service.ts`: positivity check, then under the
wallet lease: ownership lookup, versioned-cache read, expression-based
balance update, COMPLETED DEPOSIT row, cache write with bumped version. -/
def addFunds (env : Env) (w : World) (walletId userId : String) (amount : Int)
    (description : Option String) : Except TransferErr (Wallet × World) :=
  if amount ≤ 0 then .error (.badRequest "Amount must be positive")
  else
    match acquireWalletLock w walletId with
    | none => .error (.stepFailed ("Unable to acquire lock for wallet " ++ walletId))
    | some wLocked =>
      match findWalletOwned wLocked walletId userId with
      | none => .error (.notFound "Wallet not found")
      | some _ =>
        let currentVersion := match getWalletBalanceWithVersion wLocked walletId with
          | some (_, v) => v
          | none => 0
        let newVersion := currentVersion + 1
        let w1 := updateWalletBalance wLocked walletId amount
        let dep : Txn :=
          { id := env.newTxId,
            amount := amount,
            type := TransactionType.DEPOSIT,
            status := TransactionStatus.COMPLETED,
            transferState := none,
            description := description.getD "Funds added to wallet",
            sourceWalletId := none,
            destinationWalletId := some walletId,
            idempotencyKey := none,
            externalReferenceId := none,
            retryCount := 0 }
        let w2 := insertTxn w1 dep
        match findWallet w2 walletId with
        | none => .error (.stepFailed "Failed to retrieve updated wallet")
        | some updatedWallet =>
          let w3 := setWalletBalanceWithVersion w2 walletId updatedWallet.balance newVersion
          .ok (updatedWallet, releaseWalletLock w3 walletId)

/-- Status of the transaction row `tid`, when it exists. -/
def txStatus? (w : World) (tid : String) : Option TransactionStatus :=
  (findTxn w tid).map (fun t => t.status)

/-- Transfer sub-state of the transaction row `tid`, when it exists. -/
def txTransferState? (w : World) (tid : String) : Option (Option TransferState) :=
  (findTxn w tid).map (fun t => t.transferState)

/-- Balance of the wallet `wid`, when it exists. -/
def walletBal? (w : World) (wid : String) : Option Int :=
  (findWallet w wid).map (fun x => x.balance)

/-- The compensation attempts recorded in a trace, in order. -/
def compTries (tr : List Ev) : List String :=
  tr.filterMap (fun e => match e with
    | Ev.compTry n => some n
    | _ => none)

/-- Number of execution attempts of the named step recorded in a trace (each
attempt ends in either an `attemptFail` or a `stepDone` event). -/
def attemptsOf (tr : List Ev) (name : String) : Nat :=
  tr.countP (fun e => match e with
    | Ev.attemptFail _ n => n == name
    | Ev.stepDone _ n _ => n == name
    | _ => false)

/-- The sub-state written onto the transaction row immediately after forward
step `i` completed, read off the trace. -/
def stateAfterStep (tr : List Ev) (i : Nat) : Option TransferState :=
  tr.findSome? (fun e => match e with
    | Ev.stepDone j _ ts => if j == i then some ts else none
    | _ => none)

/-- Modelled from the spec: the sub-state the spec's step table (§4.F) and
claim C8 assign to the completion of each forward step — VALIDATION_COMPLETE
after step 0 (validate_transfer), FUNDS_RESERVED after step 1 (reserve_funds),
DEBIT_COMPLETE after step 2 (debit_source_wallet), CREDIT_COMPLETE after
step 3 (credit_destination_wallet). -/
def specStateForStep : Nat → TransferState
  | 0 => TransferState.VALIDATION_COMPLETE
  | 1 => TransferState.FUNDS_RESERVED
  | 2 => TransferState.DEBIT_COMPLETE
  | 3 => TransferState.CREDIT_COMPLETE
  | _ => TransferState.COMPLETED

/-- Iterated limit reads: the ledger store after `n` calls of
`getTransferLimits`, each call starting from the store the previous call
left behind. -/
def iterateGetTransferLimits : Nat → List TransferLimit → String → Nat → Nat →
    List TransferLimit
  | 0, l, _, _, _ => l
  | n + 1, l, u, t, m => iterateGetTransferLimits n (getTransferLimits l u t m).2 u t m

/-- Source wallet fixture, owner `u1`. -/
def srcWallet (b : Int) : Wallet :=
  { id := "src", balance := b, currency := "USD", isActive := true, userId := "u1" }

/-- Destination wallet fixture, owner `u2`. -/
def dstWallet (b : Int) : Wallet :=
  { id := "dst", balance := b, currency := "USD", isActive := true, userId := "u2" }

/-- Limit ledger fixture for `u1` with ample headroom and no pending resets
relative to day 1 / month 1. -/
def baseLimits : List TransferLimit :=
  [{ userId := "u1", dailyLimit := 10000, monthlyLimit := 100000,
     dailyUsed := 0, monthlyUsed := 0, lastDailyReset := 1, lastMonthlyReset := 1 }]

/-- Initial world: source 1000, destination 0, no transactions, empty caches. -/
def w0 : World :=
  { wallets := [srcWallet 1000, dstWallet 0], txns := [], limits := baseLimits }

/-- World with an underfunded source wallet (balance 50). -/
def wLow : World :=
  { wallets := [srcWallet 50, dstWallet 0], txns := [], limits := baseLimits }

/-- The fault-free forward oracle. -/
def noFault : String → Nat → Bool := fun _ _ => false

/-- The fault-free compensation oracle. -/
def noCompFault : String → Bool := fun _ => false

/-- Baseline environment: identity digest, fresh id `tx1`, clock day 1 /
month 1 / minute 10, no injected faults. -/
def env0 : Env :=
  { digest := id, genKey := "auto_gen", newTxId := "tx1", nowMin := 10,
    today := 1, month := 1, inject := noFault, cinject := noCompFault }

/-- Transfer request fixture: 150 to `dst` with explicit key `abc`. -/
def dto0 : TransferDto :=
  { destinationWalletId := "dst", amount := 150,
    description := some "dinner", idempotencyKey := some "abc" }

/-- Fault oracle: every attempt of `credit_destination_wallet` throws. -/
def injectCreditFail : String → Nat → Bool :=
  fun n _ => n == "credit_destination_wallet"

/-- Fault oracle: every attempt of `validate_transfer` throws. -/
def injectValidateFail : String → Nat → Bool :=
  fun n _ => n == "validate_transfer"

/-- Fault oracle for the retry-budget analysis: the first `k` attempts of
`validate_transfer` throw (so it succeeds on attempt `k`), and every attempt
of `reserve_funds` throws. -/
def injectBudget (k : Nat) : String → Nat → Bool :=
  fun n a => (n == "validate_transfer" && decide (a < k)) || n == "reserve_funds"

/-- Environment with the credit step always failing. -/
def envC : Env := { env0 with inject := injectCreditFail }

/-- Environment with the validation step always failing. -/
def envV : Env := { env0 with inject := injectValidateFail }

/-- Environment with the budget oracle. -/
def envK (k : Nat) : Env := { env0 with inject := injectBudget k }

/-- The first (fault-free, successful) transfer call on the initial world. -/
def firstRun : Except TransferErr TransferResponse × World :=
  transferFunds env0 w0 "src" "u1" dto0

/-- Saga context fixture matching `firstRun`'s transfer but with a symbolic
amount. -/
def ctxP (a : Int) : SagaContext :=
  { transactionId := "tx1", sourceWalletId := "src", destinationWalletId := "dst",
    amount := a, userId := "u1", idempotencyKey := "abc" }

/-- Saga-entry world with symbolic balances and amount: the two wallets plus
the freshly created PENDING transaction row. -/
def wP (b1 b2 a : Int) : World :=
  { wallets := [srcWallet b1, dstWallet b2],
    txns := [{ id := "tx1", amount := a, type := TransactionType.TRANSFER,
               status := TransactionStatus.PENDING,
               transferState := some TransferState.INITIATED,
               description := "dinner", sourceWalletId := some "src",
               destinationWalletId := some "dst", idempotencyKey := some "abc",
               externalReferenceId := none, retryCount := 0 }],
    limits := [] }

/-- Saga context fixture with the concrete amount 150. -/
def ctx0 : SagaContext := ctxP 150

/-- Fault-free transfer steps over `ctx0`. -/
def steps0 : List SagaStep := createTransferSagaSteps ctx0 noFault noCompFault

/-- The fault-free saga execution over the fixture world. -/
def sagaOut0 : Bool × SagaRun := executeSaga ctx0 steps0 { w := wP 1000 0 150 }

/-- Saga execution with the budget oracle: validate succeeds on attempt `k`,
reserve always fails. -/
def sagaOutK (k : Nat) : Bool × SagaRun :=
  executeSaga ctx0 (createTransferSagaSteps ctx0 (injectBudget k) noCompFault)
    { w := wP 1000 0 150 }

/-- Saga execution with `validate_transfer` failing on every attempt. -/
def sagaOutV : Bool × SagaRun :=
  executeSaga ctx0 (createTransferSagaSteps ctx0 injectValidateFail noCompFault)
    { w := wP 1000 0 150 }

/-- Saga execution with a symbolic world (balances `b1`, `b2`, amount `a`),
`credit_destination_wallet` failing on every attempt, and compensation
oracle `c`. -/
def sagaOutC (b1 b2 a : Int) (c : String → Bool) : Bool × SagaRun :=
  executeSaga (ctxP a) (createTransferSagaSteps (ctxP a) injectCreditFail c)
    { w := wP b1 b2 a }

/-- The insufficient-balance transfer call (source holds 50, amount 150). -/
def runLow : Except TransferErr TransferResponse × World :=
  transferFunds env0 wLow "src" "u1" dto0

/-- Ledger fixture whose daily window is stale relative to day 1 and whose
daily limit is below the fixture transfer amount. -/
def staleLimits : List TransferLimit :=
  [{ userId := "u1", dailyLimit := 100, monthlyLimit := 1000,
     dailyUsed := 500, monthlyUsed := 0, lastDailyReset := 0, lastMonthlyReset := 1 }]

/-- The response produced by `firstRun` (checked below). -/
def firstRunResponse : TransferResponse :=
  { id := "tx1", amount := 150, sourceWalletId := some "src",
    destinationWalletId := some "dst", description := "dinner",
    status := TransactionStatus.COMPLETED,
    metaTransferState := some TransferState.COMPLETED,
    metaIdempotencyKey := some "abc", metaCompletedAt := some 0 }

/-- The COMPLETED transaction row stored by `firstRun` (checked below). -/
def firstRunTxn : Txn :=
  { id := "tx1", amount := 150, type := TransactionType.TRANSFER,
    status := TransactionStatus.COMPLETED,
    transferState := some TransferState.COMPLETED,
    description := "dinner", sourceWalletId := some "src",
    destinationWalletId := some "dst", idempotencyKey := some "abc",
    externalReferenceId := none, retryCount := 0,
    sagaCurrentStep := 4,
    sagaCompletedSteps := ["validate_transfer", "reserve_funds",
      "debit_source_wallet", "credit_destination_wallet", "finalize_transfer"],
    sagaCompensatedSteps := [],
    reservedAmount := some 150,
    sourceBalanceBefore := some 1000, sourceBalanceAfter := some 850,
    destinationBalanceBefore := some 0, destinationBalanceAfter := some 150,
    completedAt := some 0 }

/-- A second payload for the hash noninterference witness: same business
fields as `dto0`, different idempotency key and external reference. -/
def dto0var : TransferDto :=
  { destinationWalletId := "dst", amount := 150, description := some "dinner",
    idempotencyKey := some "zzz", externalReferenceId := some "ext9" }

/-- Unfolding equation of the retry loop at exhausted budget. -/
theorem execStepAttempts_zero (ctx : SagaContext) (step : SagaStep) (i : Nat)
    (attempt : Nat) (s : SagaRun) :
    execStepAttempts ctx step i attempt 0 s =
      match step.execute attempt s with
      | .ok s1 => execStepSuccess ctx step i s1
      | .error msg => .error (execStepFailState step i s msg) := rfl

/-- Unfolding equation of the retry loop with remaining budget. -/
theorem execStepAttempts_succ (ctx : SagaContext) (step : SagaStep) (i : Nat)
    (attempt b : Nat) (s : SagaRun) :
    execStepAttempts ctx step i attempt (b + 1) s =
      match step.execute attempt s with
      | .ok s1 => execStepSuccess ctx step i s1
      | .error msg =>
        let sf := execStepFailState step i s msg
        if step.retryable then
          execStepAttempts ctx step i (attempt + 1) b
            (updateSagaState ctx
              { sf with
                retryCount := sf.retryCount + 1,
                trace := sf.trace ++ [Ev.retry i (sf.retryCount + 1)] })
        else .error sf := rfl

/-- Helper: `find?` commutes with a map that rewrites exactly the elements
satisfying the predicate, provided the rewrite keeps them satisfying it. -/
theorem find?_ifmap {α : Type} (p : α → Bool) (g : α → α) (l : List α)
    (hg : ∀ x, p x = true → p (g x) = true) :
    (l.map (fun x => if p x then g x else x)).find? p = (l.find? p).map g := by
  induction l with
  | nil => rfl
  | cons x xs ih =>
    by_cases hx : p x = true
    · rw [List.map_cons, if_pos hx, List.find?_cons_of_pos _ (hg x hx),
        List.find?_cons_of_pos _ hx]
      rfl
    · have hx! : ¬ p x := hx
      rw [List.map_cons, if_neg hx, List.find?_cons_of_neg _ hx!,
        List.find?_cons_of_neg _ hx!]
      exact ih

/-- Helper: a map that only rewrites elements satisfying `p`, preserving `q`
membership, leaves `find? q` unchanged when `q`-elements never satisfy `p`. -/
theorem find?_ifmap_indep {α : Type} (q p : α → Bool) (g : α → α) (l : List α)
    (hq : ∀ x, q (g x) = q x)
    (hfix : ∀ x, q x = true → p x = false) :
    (l.map (fun x => if p x then g x else x)).find? q = l.find? q := by
  induction l with
  | nil => rfl
  | cons x xs ih =>
    by_cases hx : q x = true
    · have hpx : p x = false := hfix x hx
      have hif : (if p x then g x else x) = x := by rw [hpx]; exact if_neg (by simp)
      rw [List.map_cons, hif, List.find?_cons_of_pos _ hx, List.find?_cons_of_pos _ hx]
    · have hx! : q x = false := by simpa using hx
      have hy : q (if p x then g x else x) = false := by
        by_cases hpx : p x = true
        · rw [if_pos hpx, hq, hx!]
        · rw [if_neg hpx, hx!]
      rw [List.map_cons, List.find?_cons_of_neg _ (by simp [hy]),
        List.find?_cons_of_neg _ (by simp [hx!])]
      exact ih

/-- The row found under `tid` after a field update of row `tid` is the
updated original row, for id-preserving updates. -/
theorem findTxn_updateTxn (w : World) (tid : String) (g : Txn → Txn)
    (hg : ∀ t, (g t).id = t.id) :
    findTxn (updateTxn w tid g) tid = (findTxn w tid).map g := by
  show (w.txns.map (fun t => if t.id == tid then g t else t)).find?
      (fun t => t.id == tid) = (w.txns.find? (fun t => t.id == tid)).map g
  exact find?_ifmap (fun t => t.id == tid) g w.txns (fun t ht => by
    show ((g t).id == tid) = true
    rw [hg t]
    exact ht)

/-- Status of row `tid` is untouched by id- and status-preserving updates. -/
theorem txStatus?_updateTxn (w : World) (tid : String) (g : Txn → Txn)
    (hgid : ∀ t, (g t).id = t.id) (hgs : ∀ t, (g t).status = t.status) :
    txStatus? (updateTxn w tid g) tid = txStatus? w tid := by
  unfold txStatus?
  rw [findTxn_updateTxn w tid g hgid]
  cases findTxn w tid <;> simp [hgs]

/-- Sub-state of row `tid` is untouched by id- and sub-state-preserving
updates. -/
theorem txTransferState?_updateTxn (w : World) (tid : String) (g : Txn → Txn)
    (hgid : ∀ t, (g t).id = t.id) (hgs : ∀ t, (g t).transferState = t.transferState) :
    txTransferState? (updateTxn w tid g) tid = txTransferState? w tid := by
  unfold txTransferState?
  rw [findTxn_updateTxn w tid g hgid]
  cases findTxn w tid <;> simp [hgs]

/-- The wallet row found after an expression-based balance update of the same
wallet is the updated original row. -/
theorem findWallet_updateWalletBalance (w : World) (wid : String) (d : Int) :
    findWallet (updateWalletBalance w wid d) wid =
      (findWallet w wid).map (fun x => { x with balance := x.balance + d }) := by
  show (w.wallets.map
      (fun x => if x.id == wid then { x with balance := x.balance + d } else x)).find?
      (fun x => x.id == wid) =
    (w.wallets.find? (fun x => x.id == wid)).map
      (fun x => { x with balance := x.balance + d })
  exact find?_ifmap (fun x => x.id == wid)
    (fun x => { x with balance := x.balance + d }) w.wallets (fun _ hx => hx)

/-- The balance of the updated wallet moves by exactly the delta. -/
theorem walletBal?_updateWalletBalance_self (w : World) (wid : String) (d : Int) :
    walletBal? (updateWalletBalance w wid d) wid = (walletBal? w wid).map (· + d) := by
  unfold walletBal?
  rw [findWallet_updateWalletBalance]
  cases findWallet w wid <;> rfl

/-- The balance of every other wallet is untouched by the update. -/
theorem walletBal?_updateWalletBalance_other (w : World) (wid wid' : String)
    (d : Int) (hne : wid' ≠ wid) :
    walletBal? (updateWalletBalance w wid d) wid' = walletBal? w wid' := by
  unfold walletBal?
  have h : findWallet (updateWalletBalance w wid d) wid' = findWallet w wid' := by
    show (w.wallets.map
        (fun x => if x.id == wid then { x with balance := x.balance + d } else x)).find?
        (fun x => x.id == wid') = w.wallets.find? (fun x => x.id == wid')
    exact find?_ifmap_indep (fun x => x.id == wid') (fun x => x.id == wid)
      (fun x => { x with balance := x.balance + d }) w.wallets
      (fun _ => rfl)
      (fun x hx => by
        have hid : x.id = wid' := by simpa using hx
        simp [hid, hne])
  rw [h]

/-- Claim C9: `createRequestHash` depends only on method, endpoint, userId
and the business fields destinationWalletId, amount, description — two
payloads agreeing on those six inputs hash identically, whatever their
idempotencyKey and externalReferenceId. -/
theorem claim_C9_request_hash_noninterference (digest : String → String)
    (method endpoint userId : String) (p1 p2 : TransferDto)
    (h1 : p1.destinationWalletId = p2.destinationWalletId)
    (h2 : p1.amount = p2.amount)
    (h3 : p1.description = p2.description) :
    createRequestHash digest method endpoint p1 userId =
      createRequestHash digest method endpoint p2 userId := by
  unfold createRequestHash requestDataJson corePayloadJson
  rw [h1, h2, h3]

/-- Witness for C9 at concrete payloads differing only in idempotencyKey and
externalReferenceId. -/
theorem claim_C9_witness :
    dto0.destinationWalletId = dto0var.destinationWalletId ∧
    dto0.amount = dto0var.amount ∧
    dto0.description = dto0var.description ∧
    dto0.idempotencyKey ≠ dto0var.idempotencyKey ∧
    createRequestHash id "POST" "/wallets/src/transfer" dto0 "u1" =
      createRequestHash id "POST" "/wallets/src/transfer" dto0var "u1" :=
  ⟨rfl, rfl, rfl, by decide,
    claim_C9_request_hash_noninterference id "POST" "/wallets/src/transfer"
      "u1" dto0 dto0var rfl rfl rfl⟩

/-- The ledger store returned by `getTransferLimits` is always the input
store: the function contains no save. -/
theorem getTransferLimits_store (limits : List TransferLimit) (userId : String)
    (today month : Nat) :
    (getTransferLimits limits userId today month).2 = limits := by
  unfold getTransferLimits
  cases limits.find? (fun l => l.userId == userId) <;> rfl

/-- Claim C10: `getTransferLimits` is read-only on durable state — the used
counters it zeroes when a window passed exist only on the returned view, the
stored row keeps its original fields, and any number of iterated reads leaves
the store identical. -/
theorem claim_C10_get_limits_read_only (limits : List TransferLimit)
    (userId : String) (today month : Nat) (tl : TransferLimit)
    (hfind : limits.find? (fun l => l.userId == userId) = some tl) :
    (getTransferLimits limits userId today month).2 = limits ∧
    (∀ n, iterateGetTransferLimits n limits userId today month = limits) ∧
    (∃ v, (getTransferLimits limits userId today month).1 = .ok v ∧
      (tl.lastDailyReset < today → v.dailyUsed = 0) ∧
      (tl.lastMonthlyReset < month → v.monthlyUsed = 0) ∧
      (¬ tl.lastDailyReset < today → v.dailyUsed = tl.dailyUsed) ∧
      v.lastDailyReset = tl.lastDailyReset ∧
      v.lastMonthlyReset = tl.lastMonthlyReset) := by
  refine ⟨getTransferLimits_store limits userId today month, ?_, ?_⟩
  · intro n
    induction n with
    | zero => rfl
    | succ n ih =>
      show iterateGetTransferLimits n (getTransferLimits limits userId today month).2
        userId today month = limits
      rw [getTransferLimits_store]
      exact ih
  · unfold getTransferLimits
    rw [hfind]
    refine ⟨_, rfl, ?_, ?_, ?_, rfl, rfl⟩
    · intro h; rw [if_pos h]
    · intro h; rw [if_pos h]
    · intro h; rw [if_neg h]

/-- Witness for C10 on a ledger whose daily window is stale: the view shows
0 while the stored row keeps 500. -/
theorem claim_C10_witness :
    staleLimits.find? (fun l => l.userId == "u1") = some
      { userId := "u1", dailyLimit := 100, monthlyLimit := 1000,
        dailyUsed := 500, monthlyUsed := 0, lastDailyReset := 0, lastMonthlyReset := 1 } ∧
    ((getTransferLimits staleLimits "u1" 1 1).2 = staleLimits ∧
      (∀ n, iterateGetTransferLimits n staleLimits "u1" 1 1 = staleLimits) ∧
      (∃ v, (getTransferLimits staleLimits "u1" 1 1).1 = .ok v ∧
        ((0 : Nat) < 1 → v.dailyUsed = 0) ∧
        ((1 : Nat) < 1 → v.monthlyUsed = 0) ∧
        (¬ (0 : Nat) < 1 → v.dailyUsed = 500) ∧
        v.lastDailyReset = 0 ∧
        v.lastMonthlyReset = 1)) :=
  ⟨by decide,
    claim_C10_get_limits_read_only staleLimits "u1" 1 1
      { userId := "u1", dailyLimit := 100, monthlyLimit := 1000,
        dailyUsed := 500, monthlyUsed := 0, lastDailyReset := 0, lastMonthlyReset := 1 }
      (by decide)⟩

/-- Claim C3 (code bug): in the fault-free successful transfer run both
wallet-balance mutations of the saga (debit of `src`, credit of `dst`) are
performed while the writer holds no lock at all — the spec's locking
contract is violated by the saga's mutation steps. -/
theorem claim_C3_saga_mutates_without_lease :
    firstRun.1 = .ok firstRunResponse ∧
    firstRun.2.writeLog =
      [{ walletId := "src", locksHeld := [] }, { walletId := "dst", locksHeld := [] }] ∧
    lockContractHolds firstRun.2.writeLog = false := by
  decide

/-- Contrast for C3: `addFunds` does hold the wallet lease for its balance
write, so the lock machinery itself is faithfully modelled. -/
theorem addFunds_respects_lock_contract :
    (match addFunds env0 w0 "src" "u1" 200 none with
      | .ok (_, w) => lockContractHolds w.writeLog
      | .error _ => false) = true := by
  decide

/-- Claim C8 (code bug): after forward step `i` completes, the code stores
`stateMap[i]`, which is the sub-state the step table assigns to step `i - 1`:
INITIATED after validate_transfer, VALIDATION_COMPLETE after reserve_funds,
FUNDS_RESERVED after debit_source_wallet, DEBIT_COMPLETE after
credit_destination_wallet — each one step behind the table's assignment. -/
theorem claim_C8_state_map_off_by_one :
    sagaOut0.1 = true ∧
    stateAfterStep sagaOut0.2.trace 0 = some TransferState.INITIATED ∧
    stateAfterStep sagaOut0.2.trace 1 = some TransferState.VALIDATION_COMPLETE ∧
    stateAfterStep sagaOut0.2.trace 2 = some TransferState.FUNDS_RESERVED ∧
    stateAfterStep sagaOut0.2.trace 3 = some TransferState.DEBIT_COMPLETE ∧
    specStateForStep 0 = TransferState.VALIDATION_COMPLETE ∧
    stateAfterStep sagaOut0.2.trace 0 ≠ some (specStateForStep 0) ∧
    stateAfterStep sagaOut0.2.trace 1 ≠ some (specStateForStep 1) ∧
    stateAfterStep sagaOut0.2.trace 2 ≠ some (specStateForStep 2) ∧
    stateAfterStep sagaOut0.2.trace 3 ≠ some (specStateForStep 3) := by
  decide

/-- Counterexample to C4 as stated: with source balance 50 and amount 150 the
call fails with the 400 "Insufficient balance" and leaves wallets and ledger
untouched, but no transaction row exists at all — in particular no FAILED row
with retryCount 0 and error code insufficient_balance. -/
theorem claim_C4_counterexample :
    runLow.1 = .error (.badRequest "Insufficient balance") ∧
    runLow.2.txns = [] ∧
    runLow.2.wallets = wLow.wallets ∧
    runLow.2.limits = wLow.limits := by
  decide

/-- Counterexample to C5 as stated: on a ledger with a stale daily window the
check zeroes the counter in memory (the thrown message shows `Used: 0`), then
fails with LimitExceeded — and the store still carries the old
`lastDailyReset` and `dailyUsed`: the reset was not persisted. -/
theorem claim_C5_counterexample :
    (validateTransferLimits staleLimits "u1" 150 1 1).1 =
      .error (.badRequest "Daily transfer limit exceeded. Used: 0, Limit: 100") ∧
    (validateTransferLimits staleLimits "u1" 150 1 1).2 = staleLimits ∧
    ((validateTransferLimits staleLimits "u1" 150 1 1).2.find?
        (fun l => l.userId == "u1")).map (fun l => (l.lastDailyReset, l.dailyUsed)) =
      some (0, 500) := by
  decide

/-- Counterexample to C6 as stated: when step 0 (validate_transfer) fails
with no completed steps, the transaction still terminates FAILED with
sub-state COMPENSATED, although zero compensations ran. -/
theorem claim_C6_counterexample :
    sagaOutV.1 = false ∧
    txStatus? sagaOutV.2.w "tx1" = some TransactionStatus.FAILED ∧
    txTransferState? sagaOutV.2.w "tx1" = some (some TransferState.COMPENSATED) ∧
    (findTxn sagaOutV.2.w "tx1").map (fun t => t.sagaCompletedSteps) = some [] ∧
    (findTxn sagaOutV.2.w "tx1").map (fun t => t.sagaCompensatedSteps) = some [] := by
  decide

/-- Counterexample to C7 as stated: after validate_transfer consumes three
retries (succeeding on its fourth attempt), reserve_funds fails once and is
never re-executed — although its own maxRetries is 2 — because the retry
counter is shared across the whole saga; the saga moves to compensation. -/
theorem claim_C7_counterexample :
    (sagaOutK 3).1 = false ∧
    attemptsOf (sagaOutK 3).2.trace "validate_transfer" = 4 ∧
    attemptsOf (sagaOutK 3).2.trace "reserve_funds" = 1 ∧
    (sagaOutK 3).2.retryCount = 3 := by
  decide

/-- A row either exists for both of `findTxn` and `txStatus?` or for
neither. -/
theorem rowSome_eq_statusSome (w : World) (tid : String) :
    (findTxn w tid).isSome = (txStatus? w tid).isSome := by
  unfold txStatus?
  cases findTxn w tid <;> rfl

/-- `updateSagaState` touches only saga/error fields of the row: status and
sub-state are preserved. -/
theorem updateSagaState_meta (ctx : SagaContext) (s : SagaRun) :
    txStatus? (updateSagaState ctx s).w ctx.transactionId =
      txStatus? s.w ctx.transactionId ∧
    txTransferState? (updateSagaState ctx s).w ctx.transactionId =
      txTransferState? s.w ctx.transactionId :=
  ⟨txStatus?_updateTxn _ _ _ (fun _ => rfl) (fun _ => rfl),
   txTransferState?_updateTxn _ _ _ (fun _ => rfl) (fun _ => rfl)⟩

/-- `updateTransferState` preserves the status field. -/
theorem updateTransferState_status (ctx : SagaContext) (ts : TransferState)
    (s : SagaRun) :
    txStatus? (updateTransferState ctx ts s).w ctx.transactionId =
      txStatus? s.w ctx.transactionId :=
  txStatus?_updateTxn _ _ _ (fun _ => rfl) (fun _ => rfl)

/-- `updateTransferState` writes the given sub-state onto an existing row. -/
theorem updateTransferState_sets (ctx : SagaContext) (ts : TransferState)
    (s : SagaRun) (h : (findTxn s.w ctx.transactionId).isSome = true) :
    txTransferState? (updateTransferState ctx ts s).w ctx.transactionId =
      some (some ts) := by
  have hw : (updateTransferState ctx ts s).w =
      updateTxn s.w ctx.transactionId (fun t => { t with transferState := some ts }) := rfl
  unfold txTransferState?
  rw [hw, findTxn_updateTxn s.w ctx.transactionId
    (fun t => { t with transferState := some ts }) (fun _ => rfl)]
  cases hf : findTxn s.w ctx.transactionId with
  | none => rw [hf] at h; cases h
  | some t => rfl

/-- `updateTransactionStatus` writes the given status onto an existing row. -/
theorem updateTransactionStatus_sets (ctx : SagaContext) (st : TransactionStatus)
    (s : SagaRun) (h : (findTxn s.w ctx.transactionId).isSome = true) :
    txStatus? (updateTransactionStatus ctx st s).w ctx.transactionId = some st := by
  have hw : (updateTransactionStatus ctx st s).w =
      updateTxn s.w ctx.transactionId (fun t => { t with status := st }) := rfl
  unfold txStatus?
  rw [hw, findTxn_updateTxn s.w ctx.transactionId
    (fun t => { t with status := st }) (fun _ => rfl)]
  cases hf : findTxn s.w ctx.transactionId with
  | none => rw [hf] at h; cases h
  | some t => rfl

/-- `updateTransactionStatus` preserves the sub-state field. -/
theorem updateTransactionStatus_state (ctx : SagaContext) (st : TransactionStatus)
    (s : SagaRun) :
    txTransferState? (updateTransactionStatus ctx st s).w ctx.transactionId =
      txTransferState? s.w ctx.transactionId :=
  txTransferState?_updateTxn _ _ _ (fun _ => rfl) (fun _ => rfl)

/-- A successful `validateTransfer` leaves the run state unchanged. -/
theorem validateTransfer_ok (ctx : SagaContext) (s s2 : SagaRun)
    (h : validateTransfer ctx s = .ok s2) : s2 = s := by
  unfold validateTransfer at h
  split at h
  · cases h
  · split at h
    · cases h
    · split at h
      · cases h
      · cases h; rfl

/-- Every forward-step body of the transfer saga preserves the status of the
transaction row. -/
theorem transferSteps_exec_status (ctx : SagaContext) (inject : String → Nat → Bool)
    (cinject : String → Bool) :
    ∀ st ∈ createTransferSagaSteps ctx inject cinject, ∀ a s s2,
      st.execute a s = .ok s2 →
      txStatus? s2.w ctx.transactionId = txStatus? s.w ctx.transactionId := by
  intro st hst a s s2 h
  simp only [createTransferSagaSteps, List.mem_cons, List.mem_singleton,
    List.not_mem_nil, or_false] at hst
  rcases hst with rfl | rfl | rfl | rfl | rfl <;>
    simp only [injectWrap] at h <;> split at h
  case _ => cases h
  case _ =>
    rw [validateTransfer_ok ctx s s2 h]
  case _ => cases h
  case _ =>
    unfold reserveFunds at h
    split at h
    · cases h
    · cases h
      exact txStatus?_updateTxn _ _ _ (fun _ => rfl) (fun _ => rfl)
  case _ => cases h
  case _ =>
    unfold debitSourceWallet at h
    split at h
    · cases h
    · split at h
      · cases h
      · cases h; rfl
  case _ => cases h
  case _ =>
    unfold creditDestinationWallet at h
    split at h
    · cases h
    · cases h; rfl
  case _ => cases h
  case _ =>
    unfold finalizeTransfer at h
    split at h
    · cases h; rfl
    · split at h
      · cases h; rfl
      · split at h
        · cases h; rfl
        · cases h
          exact txStatus?_updateTxn _ _ _ (fun _ => rfl) (fun _ => rfl)

/-- Every compensation body of the transfer saga preserves the status of the
transaction row. -/
theorem transferSteps_comp_status (ctx : SagaContext) (inject : String → Nat → Bool)
    (cinject : String → Bool) :
    ∀ st ∈ createTransferSagaSteps ctx inject cinject, ∀ s s2,
      st.compensate s = .ok s2 →
      txStatus? s2.w ctx.transactionId = txStatus? s.w ctx.transactionId := by
  intro st hst s s2 h
  simp only [createTransferSagaSteps, List.mem_cons, List.mem_singleton,
    List.not_mem_nil, or_false] at hst
  rcases hst with rfl | rfl | rfl | rfl | rfl <;>
    simp only [cinjectWrap] at h <;> split at h
  case _ => cases h
  case _ => cases h; rfl
  case _ => cases h
  case _ =>
    unfold releaseReservedFunds at h
    split at h
    · cases h; rfl
    · split at h
      · cases h
        exact txStatus?_updateTxn _ _ _ (fun _ => rfl) (fun _ => rfl)
      · cases h; rfl
  case _ => cases h
  case _ =>
    simp only [creditSourceWallet] at h
    split at h
    · cases h; rfl
    · cases h; rfl
  case _ => cases h
  case _ =>
    simp only [debitDestinationWallet] at h
    split at h
    · cases h; rfl
    · cases h; rfl
  case _ => cases h
  case _ => cases h; rfl

/-- The retry loop preserves the row status, both on eventual success and on
terminal failure, given that the step's execute body does. -/
theorem execStepAttempts_status (ctx : SagaContext) (step : SagaStep) (i : Nat)
    (hex : ∀ a s s2, step.execute a s = .ok s2 →
      txStatus? s2.w ctx.transactionId = txStatus? s.w ctx.transactionId)
    (budget : Nat) :
    ∀ attempt s,
      (∀ s2, execStepAttempts ctx step i attempt budget s = .ok s2 →
        txStatus? s2.w ctx.transactionId = txStatus? s.w ctx.transactionId) ∧
      (∀ sf, execStepAttempts ctx step i attempt budget s = .error sf →
        txStatus? sf.w ctx.transactionId = txStatus? s.w ctx.transactionId) := by
  induction budget with
  | zero =>
    intro attempt s
    constructor
    · intro s2 h
      rw [execStepAttempts_zero] at h
      split at h
      · next s1 hx =>
        unfold execStepSuccess at h
        cases h
        rw [updateTransferState_status, (updateSagaState_meta ctx _).1]
        exact hex attempt s s1 hx
      · cases h
    · intro sf h
      rw [execStepAttempts_zero] at h
      split at h
      · cases h
      · cases h; rfl
  | succ b ih =>
    intro attempt s
    constructor
    · intro s2 h
      rw [execStepAttempts_succ] at h
      split at h
      · next s1 hx =>
        unfold execStepSuccess at h
        cases h
        rw [updateTransferState_status, (updateSagaState_meta ctx _).1]
        exact hex attempt s s1 hx
      · next msg hx =>
        split at h
        · have hmain := (ih (attempt + 1)
            (updateSagaState ctx
              { execStepFailState step i s msg with
                retryCount := (execStepFailState step i s msg).retryCount + 1,
                trace := (execStepFailState step i s msg).trace ++
                  [Ev.retry i ((execStepFailState step i s msg).retryCount + 1)] })).1 s2 h
          exact hmain.trans (((updateSagaState_meta ctx _).1).trans rfl)
        · cases h
    · intro sf h
      rw [execStepAttempts_succ] at h
      split at h
      · next s1 hx =>
        unfold execStepSuccess at h
        cases h
      · next msg hx =>
        split at h
        · have hmain := (ih (attempt + 1)
            (updateSagaState ctx
              { execStepFailState step i s msg with
                retryCount := (execStepFailState step i s msg).retryCount + 1,
                trace := (execStepFailState step i s msg).trace ++
                  [Ev.retry i ((execStepFailState step i s msg).retryCount + 1)] })).2 sf h
          exact hmain.trans (((updateSagaState_meta ctx _).1).trans rfl)
        · cases h; rfl

/-- The forward phase preserves the row status on both outcomes, given that
every step's execute body does. -/
theorem execForward_status (ctx : SagaContext) (steps : List SagaStep)
    (hsteps : ∀ st ∈ steps, ∀ a s s2, st.execute a s = .ok s2 →
      txStatus? s2.w ctx.transactionId = txStatus? s.w ctx.transactionId) :
    ∀ i s,
      (∀ s2, execForward ctx steps i s = .ok s2 →
        txStatus? s2.w ctx.transactionId = txStatus? s.w ctx.transactionId) ∧
      (∀ sf, execForward ctx steps i s = .error sf →
        txStatus? sf.w ctx.transactionId = txStatus? s.w ctx.transactionId) := by
  induction steps with
  | nil =>
    intro i s
    constructor
    · intro s2 h; cases h; rfl
    · intro sf h; cases h
  | cons step rest ih =>
    intro i s
    have hhead := hsteps step (List.mem_cons_self step rest)
    have htail : ∀ st ∈ rest, ∀ a s s2, st.execute a s = .ok s2 →
        txStatus? s2.w ctx.transactionId = txStatus? s.w ctx.transactionId :=
      fun st hm => hsteps st (List.mem_cons_of_mem step hm)
    constructor
    · intro s2 h
      simp only [execForward] at h
      split at h
      · next s1 he =>
        exact ((ih htail (i + 1) s1).1 s2 h).trans
          (((execStepAttempts_status ctx step i hhead _ 0 _).1 s1 he).trans rfl)
      · next sfE he => cases h
    · intro sf h
      simp only [execForward] at h
      split at h
      · next s1 he =>
        exact ((ih htail (i + 1) s1).2 sf h).trans
          (((execStepAttempts_status ctx step i hhead _ 0 _).1 s1 he).trans rfl)
      · next sfE he =>
        cases h
        exact ((execStepAttempts_status ctx step i hhead _ 0 _).2 _ he).trans rfl

/-- The compensation loop preserves the row status, given that every
compensation body does: a failing compensation changes nothing and the loop
continues. -/
theorem compLoop_status (ctx : SagaContext) (steps : List SagaStep)
    (hsteps : ∀ st ∈ steps, ∀ s s2, st.compensate s = .ok s2 →
      txStatus? s2.w ctx.transactionId = txStatus? s.w ctx.transactionId) :
    ∀ names s,
      txStatus? (compLoop steps names s).w ctx.transactionId =
        txStatus? s.w ctx.transactionId := by
  intro names
  induction names with
  | nil => intro s; rfl
  | cons n rest ih =>
    intro s
    unfold compLoop
    rcases hf : steps.find? (fun st => st.name == n) with _ | st
    · simp only [hf]
      exact ih s
    · simp only [hf]
      have hmem := List.mem_of_find?_eq_some hf
      rcases hc : st.compensate { s with trace := s.trace ++ [Ev.compTry n] } with msg | s2
      · simp only [hc]
        exact (ih _).trans rfl
      · simp only [hc]
        exact (ih _).trans ((hsteps st hmem _ _ hc).trans rfl)

/-- After `compensateSaga` over the transfer steps, an existing transaction
row always reads status FAILED and sub-state COMPENSATED — whether or not
any compensation ran or succeeded. -/
theorem compensateSaga_result (ctx : SagaContext) (inject : String → Nat → Bool)
    (cinject : String → Bool) (s : SagaRun)
    (hrow : (findTxn s.w ctx.transactionId).isSome = true) :
    txStatus? (compensateSaga ctx (createTransferSagaSteps ctx inject cinject) s).w
        ctx.transactionId = some TransactionStatus.FAILED ∧
    txTransferState? (compensateSaga ctx (createTransferSagaSteps ctx inject cinject) s).w
        ctx.transactionId = some (some TransferState.COMPENSATED) := by
  unfold compensateSaga
  have h1 : txStatus? (updateTransactionStatus ctx TransactionStatus.FAILED s).w
      ctx.transactionId = some TransactionStatus.FAILED :=
    updateTransactionStatus_sets ctx _ s hrow
  have h2 : txStatus? (updateTransferState ctx TransferState.COMPENSATION_PENDING
      (updateTransactionStatus ctx TransactionStatus.FAILED s)).w ctx.transactionId =
      some TransactionStatus.FAILED := by
    rw [updateTransferState_status]; exact h1
  have h4 : txStatus? (compLoop (createTransferSagaSteps ctx inject cinject)
      (updateTransferState ctx TransferState.COMPENSATION_PENDING
        (updateTransactionStatus ctx TransactionStatus.FAILED s)).completedSteps.reverse
      { updateTransferState ctx TransferState.COMPENSATION_PENDING
          (updateTransactionStatus ctx TransactionStatus.FAILED s) with
        completedSteps :=
          (updateTransferState ctx TransferState.COMPENSATION_PENDING
            (updateTransactionStatus ctx TransactionStatus.FAILED s)).completedSteps.reverse }).w
      ctx.transactionId = some TransactionStatus.FAILED := by
    rw [compLoop_status ctx _ (transferSteps_comp_status ctx inject cinject)]
    exact h2
  have hrow4 : (findTxn (compLoop (createTransferSagaSteps ctx inject cinject)
      (updateTransferState ctx TransferState.COMPENSATION_PENDING
        (updateTransactionStatus ctx TransactionStatus.FAILED s)).completedSteps.reverse
      { updateTransferState ctx TransferState.COMPENSATION_PENDING
          (updateTransactionStatus ctx TransactionStatus.FAILED s) with
        completedSteps :=
          (updateTransferState ctx TransferState.COMPENSATION_PENDING
            (updateTransactionStatus ctx TransactionStatus.FAILED s)).completedSteps.reverse }).w
      ctx.transactionId).isSome = true := by
    rw [rowSome_eq_statusSome, h4]; rfl
  constructor
  · rw [(updateSagaState_meta ctx _).1, updateTransferState_status]
    exact h4
  · rw [(updateSagaState_meta ctx _).2]
    exact updateTransferState_sets ctx _ _ hrow4

/-- Claim C6 amended: every failed saga execution over the transfer steps —
under any forward-fault and compensation-fault schedule — terminates with the
row in status FAILED and sub-state COMPENSATED, including when step 0 failed
with no completed steps and zero compensations ran. -/
theorem claim_C6_failed_always_compensated (ctx : SagaContext)
    (inject : String → Nat → Bool) (cinject : String → Bool) (s sf : SagaRun)
    (hrow : (findTxn s.w ctx.transactionId).isSome = true)
    (hout : executeSaga ctx (createTransferSagaSteps ctx inject cinject) s =
      (false, sf)) :
    txStatus? sf.w ctx.transactionId = some TransactionStatus.FAILED ∧
    txTransferState? sf.w ctx.transactionId = some (some TransferState.COMPENSATED) := by
  rcases he : execForward ctx (createTransferSagaSteps ctx inject cinject) 0
      (updateSagaState ctx s) with sfE | sD
  · simp only [executeSaga, he, Prod.mk.injEq, true_and] at hout
    subst hout
    have hkeep : txStatus? sfE.w ctx.transactionId = txStatus? s.w ctx.transactionId := by
      have h1 := (execForward_status ctx _ (transferSteps_exec_status ctx inject cinject)
        0 (updateSagaState ctx s)).2 sfE he
      rw [h1, (updateSagaState_meta ctx s).1]
    have hrowE : (findTxn sfE.w ctx.transactionId).isSome = true := by
      rw [rowSome_eq_statusSome, hkeep, ← rowSome_eq_statusSome]
      exact hrow
    exact compensateSaga_result ctx inject cinject sfE hrowE
  · simp only [executeSaga, he] at hout
    simp at hout

/-- Witness for the amended C6 at the concrete always-failing-validation run. -/
theorem claim_C6_witness :
    (findTxn (wP 1000 0 150) "tx1").isSome = true ∧
    (txStatus? sagaOutV.2.w "tx1" = some TransactionStatus.FAILED ∧
      txTransferState? sagaOutV.2.w "tx1" = some (some TransferState.COMPENSATED)) :=
  ⟨by decide,
    claim_C6_failed_always_compensated ctx0 injectValidateFail noCompFault
      { w := wP 1000 0 150 } sagaOutV.2 (by decide) (by decide)⟩

/-- Claim C7 amended: the retry counter is a single saga-wide budget.  When
validate_transfer consumes `k` of the shared retries before succeeding, the
always-failing reserve_funds step is granted only `max (3 - k) 1` attempts
(its own maxRetries being 2, the comparison is against the already-consumed
count), and the final retry count is `max 2 k` — retries consumed by an
earlier step reduce the retries available to every later step. -/
theorem claim_C7_shared_retry_budget (k : Nat) (hk : k ≤ 3) :
    (sagaOutK k).1 = false ∧
    attemptsOf (sagaOutK k).2.trace "validate_transfer" = k + 1 ∧
    attemptsOf (sagaOutK k).2.trace "reserve_funds" = max (3 - k) 1 ∧
    (sagaOutK k).2.retryCount = max 2 k := by
  interval_cases k <;> exact (by decide)

/-- Witness for the amended C7 at `k = 2`. -/
theorem claim_C7_witness :
    2 ≤ 3 ∧
    ((sagaOutK 2).1 = false ∧
      attemptsOf (sagaOutK 2).2.trace "validate_transfer" = 2 + 1 ∧
      attemptsOf (sagaOutK 2).2.trace "reserve_funds" = max (3 - 2) 1 ∧
      (sagaOutK 2).2.retryCount = max 2 2) :=
  ⟨by decide, claim_C7_shared_retry_budget 2 (by decide)⟩

/-- Claim C2: when the saga fails at credit_destination_wallet after the
debit completed (all attempts of the credit step throw; the amount is
positive and covered), the saga fails, compensation attempts the inverse of
each completed step in reverse completion order — debit, reserve, validate —
regardless of individual compensation failures, and when the compensations
run through, both wallet balances are restored to their pre-transfer values
and the transaction ends FAILED / COMPENSATED. -/
theorem claim_C2_compensation_restores (b1 b2 a : Int) (c : String → Bool)
    (hba : a ≤ b1) (hpos : 0 < a) :
    (sagaOutC b1 b2 a c).1 = false ∧
    compTries (sagaOutC b1 b2 a c).2.trace =
      ["debit_source_wallet", "reserve_funds", "validate_transfer"] ∧
    ((∀ n, c n = false) →
      walletBal? (sagaOutC b1 b2 a c).2.w "src" = some b1 ∧
      walletBal? (sagaOutC b1 b2 a c).2.w "dst" = some b2 ∧
      txStatus? (sagaOutC b1 b2 a c).2.w "tx1" = some TransactionStatus.FAILED ∧
      txTransferState? (sagaOutC b1 b2 a c).2.w "tx1" =
        some (some TransferState.COMPENSATED)) := by
  have h : ¬ b1 < a := not_lt.mpr hba
  have ha : a ≠ 0 := by omega
  refine ⟨?_, ?_, ?_⟩
  · simp [sagaOutC, executeSaga, execForward, execStepAttempts_zero, execStepAttempts_succ,
      execStepSuccess, execStepFailState,
      createTransferSagaSteps, injectWrap, cinjectWrap, injectCreditFail, validateTransfer,
      reserveFunds, debitSourceWallet, creditDestinationWallet, finalizeTransfer,
      updateSagaState, updateTransferState, updateTransactionStatus, getTransferStateForStep,
      findActiveWallet, findWallet, findTxn, updateTxn, updateWalletBalance,
      getWalletBalanceWithVersion, setWalletBalanceWithVersion, kvGet, kvSet,
      ctxP, wP, srcWallet, dstWallet, List.find?, h, compensateSaga, compLoop,
      releaseReservedFunds, creditSourceWallet, debitDestinationWallet, reservedTruthy]
  · rcases hc1 : c "debit_source_wallet" <;> rcases hc2 : c "reserve_funds" <;>
      rcases hc3 : c "validate_transfer" <;>
    simp [sagaOutC, executeSaga, execForward, execStepAttempts_zero, execStepAttempts_succ,
      execStepSuccess, execStepFailState,
      createTransferSagaSteps, injectWrap, cinjectWrap, injectCreditFail, validateTransfer,
      reserveFunds, debitSourceWallet, creditDestinationWallet, finalizeTransfer,
      updateSagaState, updateTransferState, updateTransactionStatus, getTransferStateForStep,
      findActiveWallet, findWallet, findTxn, updateTxn, updateWalletBalance,
      getWalletBalanceWithVersion, setWalletBalanceWithVersion, kvGet, kvSet,
      ctxP, wP, srcWallet, dstWallet, List.find?, h, compensateSaga, compLoop,
      releaseReservedFunds, creditSourceWallet, debitDestinationWallet, reservedTruthy,
      ha, hc1, hc2, hc3, compTries]
  · intro hc
    simp [sagaOutC, executeSaga, execForward, execStepAttempts_zero, execStepAttempts_succ,
      execStepSuccess, execStepFailState,
      createTransferSagaSteps, injectWrap, cinjectWrap, injectCreditFail, validateTransfer,
      reserveFunds, debitSourceWallet, creditDestinationWallet, finalizeTransfer,
      updateSagaState, updateTransferState, updateTransactionStatus, getTransferStateForStep,
      findActiveWallet, findWallet, findTxn, updateTxn, updateWalletBalance,
      getWalletBalanceWithVersion, setWalletBalanceWithVersion, kvGet, kvSet,
      ctxP, wP, srcWallet, dstWallet, List.find?, h, compensateSaga, compLoop,
      releaseReservedFunds, creditSourceWallet, debitDestinationWallet, reservedTruthy,
      ha, hc, walletBal?, txStatus?, txTransferState?]

/-- Witness for C2 at concrete balances 1000 / 0, amount 150 and fault-free
compensation. -/
theorem claim_C2_witness :
    (150 : Int) ≤ 1000 ∧ (0 : Int) < 150 ∧
    ((sagaOutC 1000 0 150 noCompFault).1 = false ∧
      compTries (sagaOutC 1000 0 150 noCompFault).2.trace =
        ["debit_source_wallet", "reserve_funds", "validate_transfer"] ∧
      ((∀ n, noCompFault n = false) →
        walletBal? (sagaOutC 1000 0 150 noCompFault).2.w "src" = some 1000 ∧
        walletBal? (sagaOutC 1000 0 150 noCompFault).2.w "dst" = some 0 ∧
        txStatus? (sagaOutC 1000 0 150 noCompFault).2.w "tx1" =
          some TransactionStatus.FAILED ∧
        txTransferState? (sagaOutC 1000 0 150 noCompFault).2.w "tx1" =
          some (some TransferState.COMPENSATED))) :=
  ⟨by decide, by decide,
    claim_C2_compensation_restores 1000 0 150 noCompFault (by decide) (by decide)⟩

/-- On any thrown limit error the ledger store is returned unchanged: the
save sits after both limit checks in the source. -/
theorem validateTransferLimits_store_on_error (limits : List TransferLimit)
    (userId : String) (amount : Int) (today month : Nat) :
    ∀ e, (validateTransferLimits limits userId amount today month).1 = .error e →
      (validateTransferLimits limits userId amount today month).2 = limits := by
  intro e h
  unfold validateTransferLimits at h ⊢
  rcases hf : limits.find? (fun l => l.userId == userId) with _ | tl
  · simp only [hf]
  · simp only [hf] at h ⊢
    split_ifs at h ⊢ <;> first | rfl | cases h

/-- Claim C5 amended: the daily/monthly reset computed during a limit check
is persisted exactly when both limit checks pass; when the check fails with
LimitExceeded the store is unchanged and the reset exists only in memory. -/
theorem claim_C5_reset_persisted_only_on_pass (limits : List TransferLimit)
    (userId : String) (amount : Int) (today month : Nat) (tl : TransferLimit)
    (hfind : limits.find? (fun l => l.userId == userId) = some tl) :
    (∀ e, (validateTransferLimits limits userId amount today month).1 = .error e →
      (validateTransferLimits limits userId amount today month).2 = limits) ∧
    ((validateTransferLimits limits userId amount today month).1 = .ok () →
      ∃ tl', (validateTransferLimits limits userId amount today month).2.find?
          (fun l => l.userId == userId) = some tl' ∧
        (tl.lastDailyReset < today → tl'.dailyUsed = 0 ∧ tl'.lastDailyReset = today) ∧
        (tl.lastMonthlyReset < month → tl'.monthlyUsed = 0 ∧ tl'.lastMonthlyReset = month)) := by
  have hu : (tl.userId == userId) = true := by simpa using List.find?_some hfind
  refine ⟨validateTransferLimits_store_on_error limits userId amount today month, ?_⟩
  intro h
  by_cases hd : tl.lastDailyReset < today <;> by_cases hm : tl.lastMonthlyReset < month
  · simp only [validateTransferLimits, hfind, hd, hm, if_true, if_false] at h ⊢
    split_ifs at h ⊢ <;> dsimp only at h ⊢
    refine ⟨{ tl with dailyUsed := 0, monthlyUsed := 0, lastDailyReset := today, lastMonthlyReset := month }, ?_, fun _ => ⟨rfl, rfl⟩, fun _ => ⟨rfl, rfl⟩⟩
    rw [find?_ifmap (fun l => l.userId == userId) (fun _ => { tl with dailyUsed := 0, monthlyUsed := 0, lastDailyReset := today, lastMonthlyReset := month }) limits (fun x _ => by simpa using hu), hfind]
    rfl
  · simp only [validateTransferLimits, hfind, hd, hm, if_true, if_false] at h ⊢
    split_ifs at h ⊢ <;> dsimp only at h ⊢
    refine ⟨{ tl with dailyUsed := 0, lastDailyReset := today }, ?_, fun _ => ⟨rfl, rfl⟩, fun hf => hf.elim⟩
    rw [find?_ifmap (fun l => l.userId == userId) (fun _ => { tl with dailyUsed := 0, lastDailyReset := today }) limits (fun x _ => by simpa using hu), hfind]
    rfl
  · simp only [validateTransferLimits, hfind, hd, hm, if_true, if_false] at h ⊢
    split_ifs at h ⊢ <;> dsimp only at h ⊢
    refine ⟨{ tl with monthlyUsed := 0, lastMonthlyReset := month }, ?_, fun hf => hf.elim, fun _ => ⟨rfl, rfl⟩⟩
    rw [find?_ifmap (fun l => l.userId == userId) (fun _ => { tl with monthlyUsed := 0, lastMonthlyReset := month }) limits (fun x _ => by simpa using hu), hfind]
    rfl
  · simp only [validateTransferLimits, hfind, hd, hm, if_true, if_false] at h ⊢
    split_ifs at h ⊢ <;> dsimp only at h ⊢
    refine ⟨tl, ?_, fun hf => hf.elim, fun hf => hf.elim⟩
    rw [find?_ifmap (fun l => l.userId == userId) (fun _ => tl) limits (fun x _ => by simpa using hu), hfind]
    rfl

/-- Witness for the amended C5: a passing check on a stale daily window
persists the zeroed counter and the new reset date. -/
theorem claim_C5_witness :
    baseLimits.find? (fun l => l.userId == "u1") = some
      { userId := "u1", dailyLimit := 10000, monthlyLimit := 100000,
        dailyUsed := 0, monthlyUsed := 0, lastDailyReset := 1, lastMonthlyReset := 1 } ∧
    ((∀ e, (validateTransferLimits baseLimits "u1" 150 2 1).1 = .error e →
        (validateTransferLimits baseLimits "u1" 150 2 1).2 = baseLimits) ∧
      ((validateTransferLimits baseLimits "u1" 150 2 1).1 = .ok () →
        ∃ tl', (validateTransferLimits baseLimits "u1" 150 2 1).2.find?
            (fun l => l.userId == "u1") = some tl' ∧
          ((1 : Nat) < 2 → tl'.dailyUsed = 0 ∧ tl'.lastDailyReset = 2) ∧
          ((1 : Nat) < 1 → tl'.monthlyUsed = 0 ∧ tl'.lastMonthlyReset = 1))) :=
  ⟨by decide,
    claim_C5_reset_persisted_only_on_pass baseLimits "u1" 150 2 1
      { userId := "u1", dailyLimit := 10000, monthlyLimit := 100000,
        dailyUsed := 0, monthlyUsed := 0, lastDailyReset := 1, lastMonthlyReset := 1 }
      (by decide)⟩

/-- Claim C4 amended: on an insufficient source balance the call fails with
the 400 "Insufficient balance" before any transaction row is created — no
FAILED row (with any retryCount or error code) exists for the request, both
balances are untouched, no limit usage or reset is recorded, and no balance
write happens. -/
theorem claim_C4_insufficient_leaves_no_row (env : Env) (w : World)
    (sourceWalletId userId key : String) (dto : TransferDto) (sw dw : Wallet)
    (hkey : dto.idempotencyKey = some key)
    (hauto : key.startsWith "auto_" = false)
    (hc1 : kvGet w.resultCache ("idempotency:" ++ key) = none)
    (hc2 : findTxnByKey w key = none)
    (hc3 : kvGet w.reqHashCache ("request_hash:" ++ createRequestHash env.digest "POST"
      ("/wallets/" ++ sourceWalletId ++ "/transfer") dto userId) = none)
    (hpos : 0 < dto.amount)
    (hne : (sourceWalletId == dto.destinationWalletId) = false)
    (hsw : findWalletOwned w sourceWalletId userId = some sw)
    (hdw : findActiveWallet w dto.destinationWalletId = some dw)
    (hcur : sw.currency = dw.currency)
    (hbal : sw.balance < dto.amount) :
    (transferFunds env w sourceWalletId userId dto).1 =
      .error (.badRequest "Insufficient balance") ∧
    (transferFunds env w sourceWalletId userId dto).2.txns = w.txns ∧
    (transferFunds env w sourceWalletId userId dto).2.wallets = w.wallets ∧
    (transferFunds env w sourceWalletId userId dto).2.limits = w.limits ∧
    (transferFunds env w sourceWalletId userId dto).2.writeLog = w.writeLog := by
  have hnpos : ¬ dto.amount ≤ 0 := not_le.mpr hpos
  have hncur : ¬ sw.currency ≠ dw.currency := by simp [hcur]
  have hsw2 : findWalletOwned { w with reqHashCache := kvSet w.reqHashCache ("request_hash:" ++ createRequestHash env.digest "POST" ("/wallets/" ++ sourceWalletId ++ "/transfer") dto userId) { idempotencyKey := key, createdAtMin := env.nowMin } } sourceWalletId userId = some sw := hsw
  have hdw2 : findActiveWallet { w with reqHashCache := kvSet w.reqHashCache ("request_hash:" ++ createRequestHash env.digest "POST" ("/wallets/" ++ sourceWalletId ++ "/transfer") dto userId) { idempotencyKey := key, createdAtMin := env.nowMin } } dto.destinationWalletId = some dw := hdw
  simp only [transferFunds, hkey, Option.getD_some, checkIdempotency, hc1, hc2,
    validateRequestUniqueness, hc3, hauto, Bool.not_false, if_true,
    validateTransferRequest, if_neg hnpos, hne, Bool.false_eq_true, if_false,
    hsw2, hdw2, if_neg hncur, if_pos hbal]
  refine ⟨?_, ?_, ?_, ?_, ?_⟩ <;> trivial

/-- Witness for the amended C4 at the concrete underfunded world. -/
theorem claim_C4_witness :
    dto0.idempotencyKey = some "abc" ∧
    (srcWallet 50).balance < dto0.amount ∧
    ((transferFunds env0 wLow "src" "u1" dto0).1 =
        .error (.badRequest "Insufficient balance") ∧
      (transferFunds env0 wLow "src" "u1" dto0).2.txns = wLow.txns ∧
      (transferFunds env0 wLow "src" "u1" dto0).2.wallets = wLow.wallets ∧
      (transferFunds env0 wLow "src" "u1" dto0).2.limits = wLow.limits ∧
      (transferFunds env0 wLow "src" "u1" dto0).2.writeLog = wLow.writeLog) :=
  ⟨rfl, by decide,
    claim_C4_insufficient_leaves_no_row env0 wLow "src" "u1" "abc" dto0
      (srcWallet 50) (dstWallet 0) rfl (by decide) (by decide) (by decide) (by decide)
      (by decide) (by decide) (by decide) (by decide) rfl (by decide)⟩

/-- Claim C1: a repeated transfer call whose idempotency key matches a prior
COMPLETED transaction row — whether the cached response is still present or
has to be reconstructed from the row — returns a response carrying that
transaction's id, amount, source wallet id and destination wallet id, and
performs no saga execution, no balance write and no transaction-row change. -/
theorem claim_C1_idempotent_replay (env : Env) (w : World)
    (sourceWalletId userId key : String) (dto : TransferDto) (t : Txn)
    (hkey : dto.idempotencyKey = some key)
    (ht : findTxnByKey w key = some t)
    (hst : t.status = TransactionStatus.COMPLETED)
    (hcache : kvGet w.resultCache ("idempotency:" ++ key) = none ∨
      ∃ r1, kvGet w.resultCache ("idempotency:" ++ key) = some r1 ∧
        r1.id = t.id ∧ r1.amount = t.amount ∧ r1.sourceWalletId = t.sourceWalletId ∧
        r1.destinationWalletId = t.destinationWalletId) :
    ∃ r2, (transferFunds env w sourceWalletId userId dto).1 = .ok r2 ∧
      r2.id = t.id ∧ r2.amount = t.amount ∧ r2.sourceWalletId = t.sourceWalletId ∧
      r2.destinationWalletId = t.destinationWalletId ∧
      (transferFunds env w sourceWalletId userId dto).2.wallets = w.wallets ∧
      (transferFunds env w sourceWalletId userId dto).2.txns = w.txns ∧
      (transferFunds env w sourceWalletId userId dto).2.writeLog = w.writeLog := by
  rcases hcache with hnone | ⟨r1, hsome, hid, ham, hsrc, hdst⟩
  · simp only [transferFunds, hkey, Option.getD_some, checkIdempotency, hnone, ht,
      handleExistingTransaction, hst, reconstructResultFromTransaction,
      eq_self_iff_true, if_true, storeResult]
    exact ⟨_, rfl, rfl, rfl, rfl, rfl, trivial, trivial, trivial⟩
  · simp only [transferFunds, hkey, Option.getD_some, checkIdempotency, hsome]
    refine ⟨r1, ?_, hid, ham, hsrc, hdst, ?_, ?_, ?_⟩ <;> trivial

/-- Witness for C1: the world after the successful `firstRun`, replayed with
the same request, including evaluation of the ledger row stored by the first
call. -/
theorem claim_C1_witness :
    dto0.idempotencyKey = some "abc" ∧
    (findTxnByKey firstRun.2 "abc").isSome = true ∧
    (∃ r2, (transferFunds env0 firstRun.2 "src" "u1" dto0).1 = .ok r2 ∧
      r2.id = "tx1" ∧ r2.amount = 150 ∧ r2.sourceWalletId = some "src" ∧
      r2.destinationWalletId = some "dst" ∧
      (transferFunds env0 firstRun.2 "src" "u1" dto0).2.wallets = firstRun.2.wallets ∧
      (transferFunds env0 firstRun.2 "src" "u1" dto0).2.txns = firstRun.2.txns ∧
      (transferFunds env0 firstRun.2 "src" "u1" dto0).2.writeLog = firstRun.2.writeLog) := by
  refine ⟨rfl, by decide, ?_⟩
  have h := claim_C1_idempotent_replay env0 firstRun.2 "src" "u1" "abc" dto0
    (firstRunTxn) rfl (by decide) (by decide)
    (Or.inr ⟨firstRunResponse, by decide, by decide, by decide, by decide, by decide⟩)
  rcases h with ⟨r2, h1, h2, h3, h4, h5, h6, h7, h8⟩
  exact ⟨r2, h1, by rw [h2]; decide, by rw [h3]; decide, by rw [h4]; decide,
    by rw [h5]; decide, h6, h7, h8⟩

end P2P
